import Mathlib

/-!
Shallow embedding of the live match simulation engine of the `believe`
repository (`app/services/match_simulation.py` and the happy path of
`app/routers/websocket.py`).

Randomness is made explicit: every call the Python code makes into the
`random` module corresponds to one field of an oracle record that is passed
in.  A draw of `random.random()` or `random.uniform(a, b)` becomes a rational
parameter, `random.choice(lst)` becomes a natural-number index reduced modulo
the list length, `random.choices(population, weights)` becomes a cumulative
walk over the weight table driven by a rational draw, and
`random.randint(1, 5)` becomes `1 + n % 5`.  Floats are modelled as exact
rationals.  The free-text fields of an event (description, commentary, Ted
and crowd reactions) carry no claim-relevant information and are omitted
from the event record.
-/

/-- `TeamSide` from `app/models/websocket.py`. -/
inductive TeamSide where
  | home
  | away
  deriving DecidableEq, Repr

/-- `LiveMatchEventType` from `app/models/websocket.py`. -/
inductive LiveMatchEventType where
  | match_start
  | goal
  | possession_change
  | foul
  | yellow_card
  | red_card
  | penalty_awarded
  | penalty_scored
  | penalty_missed
  | substitution
  | injury
  | offside
  | corner
  | free_kick
  | shot_on_target
  | shot_off_target
  | save
  | halftime
  | second_half_start
  | added_time
  | match_end
  deriving DecidableEq, Repr

/-- `PlayerInfo` from `app/models/websocket.py`. -/
structure PlayerInfo where
  name : String
  number : Nat
  position : String
  deriving DecidableEq, Repr

/-- `MatchScore` from `app/models/websocket.py`. -/
structure MatchScore where
  home : Nat
  away : Nat
  deriving DecidableEq, Repr

/-- `MatchStats` from `app/models/websocket.py`; possessions are floats in
the source, modelled as exact rationals. -/
structure MatchStats where
  possession_home : ℚ
  possession_away : ℚ
  shots_home : Nat
  shots_away : Nat
  shots_on_target_home : Nat
  shots_on_target_away : Nat
  corners_home : Nat
  corners_away : Nat
  fouls_home : Nat
  fouls_away : Nat
  yellow_cards_home : Nat
  yellow_cards_away : Nat
  red_cards_home : Nat
  red_cards_away : Nat
  deriving DecidableEq, Repr

/-- `LiveMatchEvent` from `app/models/websocket.py`, restricted to the
fields the verified properties mention (the four free-text fields are
omitted). -/
structure LiveMatchEvent where
  event_id : Nat
  event_type : LiveMatchEventType
  minute : Nat
  added_time : Option Nat
  team : Option TeamSide
  player : Option PlayerInfo
  secondary_player : Option PlayerInfo
  score : MatchScore
  stats : MatchStats
  deriving DecidableEq, Repr

/-- `MatchConfig`: home/away team names, speed multiplier, excitement level. -/
structure MatchConfig where
  home_team : String
  away_team : String
  speed : ℚ
  excitement_level : Nat
  deriving DecidableEq, Repr

/-- `MatchSimulationService.RICHMOND_PLAYERS`. -/
def RICHMOND_PLAYERS : List PlayerInfo :=
  [ ⟨"Sam Obisanya", 24, "Forward"⟩,
    ⟨"Jamie Tartt", 9, "Forward"⟩,
    ⟨"Dani Rojas", 10, "Midfielder"⟩,
    ⟨"Roy Kent", 6, "Midfielder"⟩,
    ⟨"Isaac McAdoo", 5, "Defender"⟩,
    ⟨"Colin Hughes", 7, "Midfielder"⟩,
    ⟨"Richard Montlaur", 3, "Defender"⟩,
    ⟨"Jan Maas", 4, "Defender"⟩,
    ⟨"Moe Bumbercatch", 11, "Midfielder"⟩,
    ⟨"Zoreaux", 1, "Goalkeeper"⟩ ]

/-- `MatchSimulationService.AWAY_PLAYERS`. -/
def AWAY_PLAYERS : List PlayerInfo :=
  [ ⟨"Marcus Sterling", 9, "Forward"⟩,
    ⟨"João Silva", 10, "Midfielder"⟩,
    ⟨"Ahmed Hassan", 7, "Forward"⟩,
    ⟨"Oliver Thompson", 8, "Midfielder"⟩,
    ⟨"David Campbell", 4, "Defender"⟩,
    ⟨"Michael Brown", 5, "Defender"⟩,
    ⟨"James Wilson", 3, "Defender"⟩,
    ⟨"Patrick O'Brien", 6, "Midfielder"⟩,
    ⟨"Thomas Mueller", 11, "Midfielder"⟩,
    ⟨"Carlos Ramirez", 1, "Goalkeeper"⟩ ]

/-- The mutable per-session state of `MatchSimulationService` (`self.score`,
`self.stats`, `self.event_id`). -/
structure SimState where
  score : MatchScore
  stats : MatchStats
  event_id : Nat
  deriving DecidableEq, Repr

/-- The stats block as initialised in `MatchSimulationService.__init__`. -/
def initStats : MatchStats :=
  { possession_home := 50
    possession_away := 50
    shots_home := 0
    shots_away := 0
    shots_on_target_home := 0
    shots_on_target_away := 0
    corners_home := 0
    corners_away := 0
    fouls_home := 0
    fouls_away := 0
    yellow_cards_home := 0
    yellow_cards_away := 0
    red_cards_home := 0
    red_cards_away := 0 }

/-- The state as initialised in `MatchSimulationService.__init__`. -/
def initState : SimState :=
  { score := ⟨0, 0⟩, stats := initStats, event_id := 0 }

/-- `MatchSimulationService._get_player`: a random roster pick, the draw
made explicit as an index modulo the roster length. -/
def _get_player (team : TeamSide) (idx : Nat) : PlayerInfo :=
  let players := if team = TeamSide.home then RICHMOND_PLAYERS else AWAY_PLAYERS
  players.getD (idx % players.length) ⟨"", 0, ""⟩

/-- `MatchSimulationService._update_possession`: shift `possession_home` by
the uniform draw, clamp to [30, 70], and set `possession_away` to the
complement. -/
def _update_possession (shift : ℚ) (st : MatchStats) : MatchStats :=
  let ph := max 30 (min 70 (st.possession_home + shift))
  { st with possession_home := ph, possession_away := 100 - ph }

/-- `MatchSimulationService._create_event`: bump the event counter, drift
possession, and build the event carrying snapshots of the current score and
stats. -/
def _create_event (s : SimState) (shift : ℚ) (etype : LiveMatchEventType)
    (minute : Nat) (team : Option TeamSide) (player : Option PlayerInfo)
    (secondary : Option PlayerInfo) (addedT : Option Nat) :
    SimState × LiveMatchEvent :=
  let eid := s.event_id + 1
  let st := _update_possession shift s.stats
  let ev : LiveMatchEvent :=
    { event_id := eid
      event_type := etype
      minute := minute
      added_time := addedT
      team := team
      player := player
      secondary_player := secondary
      score := s.score
      stats := st }
  ({ s with stats := st, event_id := eid }, ev)

/-- The random draws one call of `_generate_random_event` (and the handler it
dispatches to) can consume, one field per `random` call site. -/
structure MinuteDraws where
  fire : ℚ
  sideHome : Bool
  playerIdx : Nat
  typeDraw : ℚ
  shift : ℚ
  penaltyConvert : ℚ
  penaltyPlayerIdx : Nat
  assistDraw : ℚ
  assistPicks : List Nat
  deriving Repr

/-- `random.choices(population, weights)`: walk the cumulative weights with a
single draw `x` (in the source, `x = random.random() * total`), returning the
first entry whose cumulative weight exceeds `x`. -/
def chooseWeighted {α : Type} (l : List (α × ℚ)) (x : ℚ) (dflt : α) : α :=
  match l with
  | [] => dflt
  | (a, w) :: rest => if x < w then a else chooseWeighted rest (x - w) dflt

/-- The `event_weights` table of `_generate_random_event`; the goal weight is
`2 + excitement_level // 3` with integer division. -/
def eventWeights (cfg : MatchConfig) : List (LiveMatchEventType × ℚ) :=
  [ (LiveMatchEventType.possession_change, 30),
    (LiveMatchEventType.foul, 15),
    (LiveMatchEventType.shot_off_target, 12),
    (LiveMatchEventType.shot_on_target, 10),
    (LiveMatchEventType.corner, 8),
    (LiveMatchEventType.offside, 6),
    (LiveMatchEventType.save, 5),
    (LiveMatchEventType.free_kick, 5),
    (LiveMatchEventType.yellow_card, 3),
    (LiveMatchEventType.goal, ((2 + cfg.excitement_level / 3 : Nat) : ℚ)),
    (LiveMatchEventType.injury, 2),
    (LiveMatchEventType.penalty_awarded, 1),
    (LiveMatchEventType.red_card, 1/2) ]

/-- Sum of the weights in the table. -/
def totalWeight (cfg : MatchConfig) : ℚ :=
  ((eventWeights cfg).map Prod.snd).sum

/-- The `while assister.name == scorer.name` re-draw loop of `_handle_goal`,
run over the explicit list of successive `random.choice` indices: the result
is the first draw naming a player distinct from the scorer (`none` models a
draw sequence on which the source loop would never exit). -/
def pickAssister (team : TeamSide) (scorer : PlayerInfo) :
    List Nat → Option PlayerInfo
  | [] => none
  | i :: rest =>
    let p := _get_player team i
    if p.name = scorer.name then pickAssister team scorer rest else some p

/-- `MatchSimulationService._handle_goal`. -/
def _handle_goal (s : SimState) (minute : Nat) (team : TeamSide)
    (scorer : PlayerInfo) (assistDraw : ℚ) (assistPicks : List Nat)
    (shift : ℚ) : SimState × LiveMatchEvent :=
  let s1 : SimState :=
    if team = TeamSide.home then
      { s with score := { s.score with home := s.score.home + 1 }
               stats := { s.stats with
                          shots_home := s.stats.shots_home + 1
                          shots_on_target_home := s.stats.shots_on_target_home + 1 } }
    else
      { s with score := { s.score with away := s.score.away + 1 }
               stats := { s.stats with
                          shots_away := s.stats.shots_away + 1
                          shots_on_target_away := s.stats.shots_on_target_away + 1 } }
  let assister : Option PlayerInfo :=
    if (3/10 : ℚ) < assistDraw then pickAssister team scorer assistPicks else none
  _create_event s1 shift LiveMatchEventType.goal minute (some team) (some scorer)
    assister none

/-- `MatchSimulationService._handle_yellow_card`. -/
def _handle_yellow_card (s : SimState) (minute : Nat) (team : TeamSide)
    (player : PlayerInfo) (shift : ℚ) : SimState × LiveMatchEvent :=
  let s1 : SimState :=
    if team = TeamSide.home then
      { s with stats := { s.stats with
                          yellow_cards_home := s.stats.yellow_cards_home + 1
                          fouls_home := s.stats.fouls_home + 1 } }
    else
      { s with stats := { s.stats with
                          yellow_cards_away := s.stats.yellow_cards_away + 1
                          fouls_away := s.stats.fouls_away + 1 } }
  _create_event s1 shift LiveMatchEventType.yellow_card minute (some team)
    (some player) none none

/-- `MatchSimulationService._handle_red_card`. -/
def _handle_red_card (s : SimState) (minute : Nat) (team : TeamSide)
    (player : PlayerInfo) (shift : ℚ) : SimState × LiveMatchEvent :=
  let s1 : SimState :=
    if team = TeamSide.home then
      { s with stats := { s.stats with
                          red_cards_home := s.stats.red_cards_home + 1
                          fouls_home := s.stats.fouls_home + 1 } }
    else
      { s with stats := { s.stats with
                          red_cards_away := s.stats.red_cards_away + 1
                          fouls_away := s.stats.fouls_away + 1 } }
  _create_event s1 shift LiveMatchEventType.red_card minute (some team)
    (some player) none none

/-- `MatchSimulationService._handle_penalty`: note the extra
`self.event_id += 1` before the outcome is resolved; `random.random() > 0.25`
converts (75%), otherwise the penalty is missed. -/
def _handle_penalty (s : SimState) (minute : Nat) (team : TeamSide)
    (convert : ℚ) (pIdx : Nat) (shift : ℚ) : SimState × LiveMatchEvent :=
  let s0 : SimState := { s with event_id := s.event_id + 1 }
  let player := _get_player team pIdx
  if (1/4 : ℚ) < convert then
    let s1 : SimState :=
      if team = TeamSide.home then
        { s0 with score := { s0.score with home := s0.score.home + 1 }
                  stats := { s0.stats with
                             shots_home := s0.stats.shots_home + 1
                             shots_on_target_home := s0.stats.shots_on_target_home + 1 } }
      else
        { s0 with score := { s0.score with away := s0.score.away + 1 }
                  stats := { s0.stats with
                             shots_away := s0.stats.shots_away + 1
                             shots_on_target_away := s0.stats.shots_on_target_away + 1 } }
    _create_event s1 shift LiveMatchEventType.penalty_scored minute (some team)
      (some player) none none
  else
    let s1 : SimState :=
      if team = TeamSide.home then
        { s0 with stats := { s0.stats with shots_home := s0.stats.shots_home + 1 } }
      else
        { s0 with stats := { s0.stats with shots_away := s0.stats.shots_away + 1 } }
    _create_event s1 shift LiveMatchEventType.penalty_missed minute (some team)
      (some player) none none

/-- `MatchSimulationService._handle_shot_on_target`: realized as a save. -/
def _handle_shot_on_target (s : SimState) (minute : Nat) (team : TeamSide)
    (player : PlayerInfo) (shift : ℚ) : SimState × LiveMatchEvent :=
  let s1 : SimState :=
    if team = TeamSide.home then
      { s with stats := { s.stats with
                          shots_home := s.stats.shots_home + 1
                          shots_on_target_home := s.stats.shots_on_target_home + 1 } }
    else
      { s with stats := { s.stats with
                          shots_away := s.stats.shots_away + 1
                          shots_on_target_away := s.stats.shots_on_target_away + 1 } }
  _create_event s1 shift LiveMatchEventType.save minute (some team)
    (some player) none none

/-- `MatchSimulationService._handle_shot_off_target`. -/
def _handle_shot_off_target (s : SimState) (minute : Nat) (team : TeamSide)
    (player : PlayerInfo) (shift : ℚ) : SimState × LiveMatchEvent :=
  let s1 : SimState :=
    if team = TeamSide.home then
      { s with stats := { s.stats with shots_home := s.stats.shots_home + 1 } }
    else
      { s with stats := { s.stats with shots_away := s.stats.shots_away + 1 } }
  _create_event s1 shift LiveMatchEventType.shot_off_target minute (some team)
    (some player) none none

/-- `MatchSimulationService._handle_corner`. -/
def _handle_corner (s : SimState) (minute : Nat) (team : TeamSide)
    (shift : ℚ) : SimState × LiveMatchEvent :=
  let s1 : SimState :=
    if team = TeamSide.home then
      { s with stats := { s.stats with corners_home := s.stats.corners_home + 1 } }
    else
      { s with stats := { s.stats with corners_away := s.stats.corners_away + 1 } }
  _create_event s1 shift LiveMatchEventType.corner minute (some team) none none none

/-- `MatchSimulationService._handle_foul`. -/
def _handle_foul (s : SimState) (minute : Nat) (team : TeamSide)
    (player : PlayerInfo) (shift : ℚ) : SimState × LiveMatchEvent :=
  let s1 : SimState :=
    if team = TeamSide.home then
      { s with stats := { s.stats with fouls_home := s.stats.fouls_home + 1 } }
    else
      { s with stats := { s.stats with fouls_away := s.stats.fouls_away + 1 } }
  _create_event s1 shift LiveMatchEventType.foul minute (some team)
    (some player) none none

/-- The `elif` dispatch chain of `_generate_random_event` (source lines
329-347): route the drawn event type to its handler. -/
def dispatchEvent (s : SimState) (minute : Nat) (team : TeamSide)
    (player : PlayerInfo) (etype : LiveMatchEventType) (d : MinuteDraws) :
    SimState × LiveMatchEvent :=
  if etype = LiveMatchEventType.goal then
    _handle_goal s minute team player d.assistDraw d.assistPicks d.shift
  else if etype = LiveMatchEventType.yellow_card then
    _handle_yellow_card s minute team player d.shift
  else if etype = LiveMatchEventType.red_card then
    _handle_red_card s minute team player d.shift
  else if etype = LiveMatchEventType.penalty_awarded then
    _handle_penalty s minute team d.penaltyConvert d.penaltyPlayerIdx d.shift
  else if etype = LiveMatchEventType.shot_on_target ∨
          etype = LiveMatchEventType.save then
    _handle_shot_on_target s minute team player d.shift
  else if etype = LiveMatchEventType.shot_off_target then
    _handle_shot_off_target s minute team player d.shift
  else if etype = LiveMatchEventType.corner then
    _handle_corner s minute team d.shift
  else if etype = LiveMatchEventType.foul then
    _handle_foul s minute team player d.shift
  else
    _create_event s d.shift etype minute (some team) (some player) none none

/-- `MatchSimulationService._generate_random_event`: fire check, side and
player draws, weighted type draw (`x = random() * total`), then the `elif`
dispatch chain. -/
def _generate_random_event (cfg : MatchConfig) (minute : Nat) (d : MinuteDraws)
    (s : SimState) : SimState × Option LiveMatchEvent :=
  if (cfg.excitement_level : ℚ) / 15 < d.fire then (s, none)
  else
    let team := if d.sideHome then TeamSide.home else TeamSide.away
    let player := _get_player team d.playerIdx
    let etype := chooseWeighted (eventWeights cfg) (d.typeDraw * totalWeight cfg)
      LiveMatchEventType.possession_change
    let r := dispatchEvent s minute team player etype d
    (r.1, some r.2)

/-- All the random draws one full run of `simulate_match` can consume. -/
structure MatchOracle where
  startShift : ℚ
  minuteDraws : Nat → MinuteDraws
  halftimeShift : ℚ
  secondHalfStartShift : ℚ
  addedRaw : Nat
  addedShift : ℚ
  addedTicks : Nat → MinuteDraws
  endShift : ℚ

/-- The `for minute in range(lo, hi)` loops of `simulate_match`, over the
explicit list of minutes: generate zero-or-one event per minute, threading
the state. -/
def runMinutes (cfg : MatchConfig) (ds : Nat → MinuteDraws) :
    List Nat → SimState → SimState × List LiveMatchEvent
  | [], s => (s, [])
  | m :: ms, s =>
    let r1 := _generate_random_event cfg m (ds m) s
    let r2 := runMinutes cfg ds ms r1.1
    (r2.1, match r1.2 with
           | none => r2.2
           | some e => e :: r2.2)

/-- The `for added in range(1, added_minutes + 1)` loop of `simulate_match`,
over the explicit list of tick numbers: each tick generates zero-or-one
event at minute 90 and stamps the yielded event's `added_time` with the tick
number. -/
def runAdded (cfg : MatchConfig) (ds : Nat → MinuteDraws) :
    List Nat → SimState → SimState × List LiveMatchEvent
  | [], s => (s, [])
  | k :: ks, s =>
    let r1 := _generate_random_event cfg 90 (ds k) s
    let r2 := runAdded cfg ds ks r1.1
    (r2.1, match r1.2 with
           | none => r2.2
           | some e => { e with added_time := some k } :: r2.2)

/-- `MatchSimulationService.simulate_match`, returning the final state
together with the full list of yielded events.  `random.randint(1, 5)` is
modelled as `1 + addedRaw % 5`. -/
def runMatch (cfg : MatchConfig) (o : MatchOracle) :
    SimState × List LiveMatchEvent :=
  let r0 := _create_event initState o.startShift LiveMatchEventType.match_start 0
    none none none none
  let r1 := runMinutes cfg o.minuteDraws (List.range' 1 45) r0.1
  let r2 := _create_event r1.1 o.halftimeShift LiveMatchEventType.halftime 45
    none none none none
  let r3 := _create_event r2.1 o.secondHalfStartShift
    LiveMatchEventType.second_half_start 45 none none none none
  let r4 := runMinutes cfg o.minuteDraws (List.range' 46 45) r3.1
  let added := 1 + o.addedRaw % 5
  let r5 := _create_event r4.1 o.addedShift LiveMatchEventType.added_time 90
    none none none none
  let r6 := runAdded cfg o.addedTicks (List.range' 1 added) r5.1
  let r7 := _create_event r6.1 o.endShift LiveMatchEventType.match_end 90
    none none none (some added)
  (r7.1,
   r0.2 :: r1.2 ++ r2.2 :: r3.2 :: r4.2 ++ r5.2 :: r6.2 ++ [r7.2])

/-- The sequence of events one session's Driver yields. -/
def simulate_match (cfg : MatchConfig) (o : MatchOracle) :
    List LiveMatchEvent :=
  (runMatch cfg o).2

/-! ### Invariant predicates -/

/-- The event types `_generate_random_event` can actually emit (the weighted
table minus `shot_on_target` and `penalty_awarded`, which its handlers
realize as `save` and as `penalty_scored`/`penalty_missed`). -/
def genType : LiveMatchEventType → Bool
  | LiveMatchEventType.possession_change => true
  | LiveMatchEventType.foul => true
  | LiveMatchEventType.shot_off_target => true
  | LiveMatchEventType.save => true
  | LiveMatchEventType.corner => true
  | LiveMatchEventType.offside => true
  | LiveMatchEventType.free_kick => true
  | LiveMatchEventType.yellow_card => true
  | LiveMatchEventType.goal => true
  | LiveMatchEventType.injury => true
  | LiveMatchEventType.penalty_scored => true
  | LiveMatchEventType.penalty_missed => true
  | LiveMatchEventType.red_card => true
  | _ => false

/-- The possession invariant: the two percentages sum to exactly 100 and
both lie in the closed interval [30, 70]. -/
def possessionOk (st : MatchStats) : Prop :=
  st.possession_home + st.possession_away = 100 ∧
  30 ≤ st.possession_home ∧ st.possession_home ≤ 70 ∧
  30 ≤ st.possession_away ∧ st.possession_away ≤ 70

/-- How an event's score snapshot relates to the immediately preceding
snapshot: a `goal` or `penalty_scored` event raises exactly one side by
exactly 1, every other event leaves the score unchanged. -/
def scoreStep (prev : MatchScore) (e : LiveMatchEvent) : Prop :=
  if e.event_type = LiveMatchEventType.goal ∨
     e.event_type = LiveMatchEventType.penalty_scored then
    e.score = ⟨prev.home + 1, prev.away⟩ ∨ e.score = ⟨prev.home, prev.away + 1⟩
  else
    e.score = prev

/-- How an event's card and foul counters relate to the immediately
preceding snapshot: a card event carries the carded side in its `team`
field and increments exactly that side's card counter and that same side's
fouls counter, both by 1, leaving the other side untouched. -/
def cardStep (prev : MatchStats) (e : LiveMatchEvent) : Prop :=
  (e.event_type = LiveMatchEventType.yellow_card →
    (e.team = some TeamSide.home ∧
     e.stats.yellow_cards_home = prev.yellow_cards_home + 1 ∧
     e.stats.fouls_home = prev.fouls_home + 1 ∧
     e.stats.yellow_cards_away = prev.yellow_cards_away ∧
     e.stats.fouls_away = prev.fouls_away) ∨
    (e.team = some TeamSide.away ∧
     e.stats.yellow_cards_away = prev.yellow_cards_away + 1 ∧
     e.stats.fouls_away = prev.fouls_away + 1 ∧
     e.stats.yellow_cards_home = prev.yellow_cards_home ∧
     e.stats.fouls_home = prev.fouls_home)) ∧
  (e.event_type = LiveMatchEventType.red_card →
    (e.team = some TeamSide.home ∧
     e.stats.red_cards_home = prev.red_cards_home + 1 ∧
     e.stats.fouls_home = prev.fouls_home + 1 ∧
     e.stats.red_cards_away = prev.red_cards_away ∧
     e.stats.fouls_away = prev.fouls_away) ∨
    (e.team = some TeamSide.away ∧
     e.stats.red_cards_away = prev.red_cards_away + 1 ∧
     e.stats.fouls_away = prev.fouls_away + 1 ∧
     e.stats.red_cards_home = prev.red_cards_home ∧
     e.stats.fouls_home = prev.fouls_home))

/-- Everything a single event creation step guarantees: the event snapshots
the post-step state, possession is in range, and the score/card deltas
against the pre-step state are as claimed. -/
def StepOk (s s' : SimState) (e : LiveMatchEvent) : Prop :=
  e.score = s'.score ∧ e.stats = s'.stats ∧ possessionOk e.stats ∧
  scoreStep s.score e ∧ cardStep s.stats e

/-- A list of events is a valid trace from state `s` to state `s'` when each
event satisfies `StepOk` against its predecessor state. -/
def ChainOk : SimState → List LiveMatchEvent → SimState → Prop
  | s, [], s' => s' = s
  | s, e :: l, s' => ∃ s₁, StepOk s s₁ e ∧ ChainOk s₁ l s'

/-! ### Step lemmas -/

lemma possessionOk_update (shift : ℚ) (st : MatchStats) :
    possessionOk (_update_possession shift st) := by
  simp only [_update_possession, possessionOk]
  constructor
  · ring
  refine ⟨le_max_left _ _, ?_, ?_, ?_⟩
  · exact max_le (by norm_num) (min_le_left _ _)
  · have h : max 30 (min 70 (st.possession_home + shift)) ≤ 70 :=
      max_le (by norm_num) (min_le_left _ _)
    linarith
  · have h : (30 : ℚ) ≤ max 30 (min 70 (st.possession_home + shift)) :=
      le_max_left _ _
    linarith

lemma update_counters (shift : ℚ) (st : MatchStats) :
    (_update_possession shift st).shots_home = st.shots_home ∧
    (_update_possession shift st).shots_away = st.shots_away ∧
    (_update_possession shift st).shots_on_target_home = st.shots_on_target_home ∧
    (_update_possession shift st).shots_on_target_away = st.shots_on_target_away ∧
    (_update_possession shift st).corners_home = st.corners_home ∧
    (_update_possession shift st).corners_away = st.corners_away ∧
    (_update_possession shift st).fouls_home = st.fouls_home ∧
    (_update_possession shift st).fouls_away = st.fouls_away ∧
    (_update_possession shift st).yellow_cards_home = st.yellow_cards_home ∧
    (_update_possession shift st).yellow_cards_away = st.yellow_cards_away ∧
    (_update_possession shift st).red_cards_home = st.red_cards_home ∧
    (_update_possession shift st).red_cards_away = st.red_cards_away := by
  simp [_update_possession]

@[simp] lemma update_shots_home (shift : ℚ) (st : MatchStats) :
    (_update_possession shift st).shots_home = st.shots_home := rfl

@[simp] lemma update_shots_away (shift : ℚ) (st : MatchStats) :
    (_update_possession shift st).shots_away = st.shots_away := rfl

@[simp] lemma update_sot_home (shift : ℚ) (st : MatchStats) :
    (_update_possession shift st).shots_on_target_home = st.shots_on_target_home := rfl

@[simp] lemma update_sot_away (shift : ℚ) (st : MatchStats) :
    (_update_possession shift st).shots_on_target_away = st.shots_on_target_away := rfl

@[simp] lemma update_corners_home (shift : ℚ) (st : MatchStats) :
    (_update_possession shift st).corners_home = st.corners_home := rfl

@[simp] lemma update_corners_away (shift : ℚ) (st : MatchStats) :
    (_update_possession shift st).corners_away = st.corners_away := rfl

@[simp] lemma update_fouls_home (shift : ℚ) (st : MatchStats) :
    (_update_possession shift st).fouls_home = st.fouls_home := rfl

@[simp] lemma update_fouls_away (shift : ℚ) (st : MatchStats) :
    (_update_possession shift st).fouls_away = st.fouls_away := rfl

@[simp] lemma update_yellow_home (shift : ℚ) (st : MatchStats) :
    (_update_possession shift st).yellow_cards_home = st.yellow_cards_home := rfl

@[simp] lemma update_yellow_away (shift : ℚ) (st : MatchStats) :
    (_update_possession shift st).yellow_cards_away = st.yellow_cards_away := rfl

@[simp] lemma update_red_home (shift : ℚ) (st : MatchStats) :
    (_update_possession shift st).red_cards_home = st.red_cards_home := rfl

@[simp] lemma update_red_away (shift : ℚ) (st : MatchStats) :
    (_update_possession shift st).red_cards_away = st.red_cards_away := rfl

@[simp] lemma create_event_fst_score (s : SimState) (shift : ℚ)
    (t : LiveMatchEventType) (m : Nat) (team : Option TeamSide)
    (p sp : Option PlayerInfo) (a : Option Nat) :
    (_create_event s shift t m team p sp a).1.score = s.score := rfl

@[simp] lemma create_event_fst_stats (s : SimState) (shift : ℚ)
    (t : LiveMatchEventType) (m : Nat) (team : Option TeamSide)
    (p sp : Option PlayerInfo) (a : Option Nat) :
    (_create_event s shift t m team p sp a).1.stats
      = _update_possession shift s.stats := rfl

@[simp] lemma create_event_fst_id (s : SimState) (shift : ℚ)
    (t : LiveMatchEventType) (m : Nat) (team : Option TeamSide)
    (p sp : Option PlayerInfo) (a : Option Nat) :
    (_create_event s shift t m team p sp a).1.event_id = s.event_id + 1 := rfl

@[simp] lemma create_event_snd_score (s : SimState) (shift : ℚ)
    (t : LiveMatchEventType) (m : Nat) (team : Option TeamSide)
    (p sp : Option PlayerInfo) (a : Option Nat) :
    (_create_event s shift t m team p sp a).2.score = s.score := rfl

@[simp] lemma create_event_snd_stats (s : SimState) (shift : ℚ)
    (t : LiveMatchEventType) (m : Nat) (team : Option TeamSide)
    (p sp : Option PlayerInfo) (a : Option Nat) :
    (_create_event s shift t m team p sp a).2.stats
      = _update_possession shift s.stats := rfl

@[simp] lemma create_event_snd_id (s : SimState) (shift : ℚ)
    (t : LiveMatchEventType) (m : Nat) (team : Option TeamSide)
    (p sp : Option PlayerInfo) (a : Option Nat) :
    (_create_event s shift t m team p sp a).2.event_id = s.event_id + 1 := rfl

@[simp] lemma create_event_snd_type (s : SimState) (shift : ℚ)
    (t : LiveMatchEventType) (m : Nat) (team : Option TeamSide)
    (p sp : Option PlayerInfo) (a : Option Nat) :
    (_create_event s shift t m team p sp a).2.event_type = t := rfl

@[simp] lemma create_event_snd_minute (s : SimState) (shift : ℚ)
    (t : LiveMatchEventType) (m : Nat) (team : Option TeamSide)
    (p sp : Option PlayerInfo) (a : Option Nat) :
    (_create_event s shift t m team p sp a).2.minute = m := rfl

@[simp] lemma create_event_snd_added (s : SimState) (shift : ℚ)
    (t : LiveMatchEventType) (m : Nat) (team : Option TeamSide)
    (p sp : Option PlayerInfo) (a : Option Nat) :
    (_create_event s shift t m team p sp a).2.added_time = a := rfl

@[simp] lemma create_event_snd_team (s : SimState) (shift : ℚ)
    (t : LiveMatchEventType) (m : Nat) (team : Option TeamSide)
    (p sp : Option PlayerInfo) (a : Option Nat) :
    (_create_event s shift t m team p sp a).2.team = team := rfl

/-- `StepOk` for a bare `_create_event` call on an event type that touches
neither the score nor the card counters. -/
lemma stepOk_create_event (s : SimState) (shift : ℚ) (t : LiveMatchEventType)
    (m : Nat) (team : Option TeamSide) (p sp : Option PlayerInfo)
    (a : Option Nat)
    (h1 : t ≠ LiveMatchEventType.goal)
    (h2 : t ≠ LiveMatchEventType.penalty_scored)
    (h3 : t ≠ LiveMatchEventType.yellow_card)
    (h4 : t ≠ LiveMatchEventType.red_card) :
    StepOk s (_create_event s shift t m team p sp a).1
      (_create_event s shift t m team p sp a).2 := by
  refine ⟨rfl, rfl, possessionOk_update shift s.stats, ?_, ?_⟩
  · simp [scoreStep, h1, h2]
  · simp [cardStep, h3, h4]

lemma stepOk_handle_goal (s : SimState) (m : Nat) (team : TeamSide)
    (scorer : PlayerInfo) (ad : ℚ) (ap : List Nat) (shift : ℚ) :
    StepOk s (_handle_goal s m team scorer ad ap shift).1
      (_handle_goal s m team scorer ad ap shift).2 := by
  cases team <;>
    exact ⟨rfl, rfl, possessionOk_update _ _,
      by simp [scoreStep, _handle_goal], by simp [cardStep, _handle_goal]⟩

lemma stepOk_handle_yellow (s : SimState) (m : Nat) (team : TeamSide)
    (player : PlayerInfo) (shift : ℚ) :
    StepOk s (_handle_yellow_card s m team player shift).1
      (_handle_yellow_card s m team player shift).2 := by
  cases team
  · exact ⟨rfl, rfl, possessionOk_update _ _,
      by simp [scoreStep, _handle_yellow_card],
      by simp [cardStep, _handle_yellow_card]⟩
  · exact ⟨rfl, rfl, possessionOk_update _ _,
      by simp [scoreStep, _handle_yellow_card],
      by simp [cardStep, _handle_yellow_card]⟩

lemma stepOk_handle_red (s : SimState) (m : Nat) (team : TeamSide)
    (player : PlayerInfo) (shift : ℚ) :
    StepOk s (_handle_red_card s m team player shift).1
      (_handle_red_card s m team player shift).2 := by
  cases team
  · exact ⟨rfl, rfl, possessionOk_update _ _,
      by simp [scoreStep, _handle_red_card],
      by simp [cardStep, _handle_red_card]⟩
  · exact ⟨rfl, rfl, possessionOk_update _ _,
      by simp [scoreStep, _handle_red_card],
      by simp [cardStep, _handle_red_card]⟩

lemma stepOk_handle_penalty (s : SimState) (m : Nat) (team : TeamSide)
    (convert : ℚ) (pIdx : Nat) (shift : ℚ) :
    StepOk s (_handle_penalty s m team convert pIdx shift).1
      (_handle_penalty s m team convert pIdx shift).2 := by
  cases team <;> simp only [_handle_penalty] <;> split_ifs with hc <;>
    exact ⟨rfl, rfl, possessionOk_update _ _, by simp [scoreStep],
      by simp [cardStep]⟩

lemma stepOk_handle_sot (s : SimState) (m : Nat) (team : TeamSide)
    (player : PlayerInfo) (shift : ℚ) :
    StepOk s (_handle_shot_on_target s m team player shift).1
      (_handle_shot_on_target s m team player shift).2 := by
  cases team <;>
    exact ⟨rfl, rfl, possessionOk_update _ _,
      by simp [scoreStep, _handle_shot_on_target],
      by simp [cardStep, _handle_shot_on_target]⟩

lemma stepOk_handle_soff (s : SimState) (m : Nat) (team : TeamSide)
    (player : PlayerInfo) (shift : ℚ) :
    StepOk s (_handle_shot_off_target s m team player shift).1
      (_handle_shot_off_target s m team player shift).2 := by
  cases team <;>
    exact ⟨rfl, rfl, possessionOk_update _ _,
      by simp [scoreStep, _handle_shot_off_target],
      by simp [cardStep, _handle_shot_off_target]⟩

lemma stepOk_handle_corner (s : SimState) (m : Nat) (team : TeamSide)
    (shift : ℚ) :
    StepOk s (_handle_corner s m team shift).1
      (_handle_corner s m team shift).2 := by
  cases team <;>
    exact ⟨rfl, rfl, possessionOk_update _ _,
      by simp [scoreStep, _handle_corner],
      by simp [cardStep, _handle_corner]⟩

lemma stepOk_handle_foul (s : SimState) (m : Nat) (team : TeamSide)
    (player : PlayerInfo) (shift : ℚ) :
    StepOk s (_handle_foul s m team player shift).1
      (_handle_foul s m team player shift).2 := by
  cases team <;>
    exact ⟨rfl, rfl, possessionOk_update _ _,
      by simp [scoreStep, _handle_foul],
      by simp [cardStep, _handle_foul]⟩

lemma chooseWeighted_mem {α : Type} (l : List (α × ℚ)) (x : ℚ) (dflt : α) :
    chooseWeighted l x dflt = dflt ∨
      chooseWeighted l x dflt ∈ l.map Prod.fst := by
  induction l generalizing x with
  | nil => exact Or.inl rfl
  | cons hd tl ih =>
    rcases hd with ⟨a, w⟩
    by_cases hx : x < w
    · right
      simp [chooseWeighted, hx]
    · rcases ih (x - w) with h | h
      · exact Or.inl (by simpa [chooseWeighted, hx] using h)
      · right
        simp only [chooseWeighted, hx, if_false, List.map_cons]
        exact List.mem_cons_of_mem _ h

lemma handle_penalty_type (s : SimState) (m : Nat) (team : TeamSide)
    (convert : ℚ) (pIdx : Nat) (shift : ℚ) :
    (_handle_penalty s m team convert pIdx shift).2.event_type
      = if (1/4 : ℚ) < convert then LiveMatchEventType.penalty_scored
        else LiveMatchEventType.penalty_missed := by
  simp only [_handle_penalty]
  split_ifs <;> rfl

lemma handle_penalty_minute (s : SimState) (m : Nat) (team : TeamSide)
    (convert : ℚ) (pIdx : Nat) (shift : ℚ) :
    (_handle_penalty s m team convert pIdx shift).2.minute = m := by
  simp only [_handle_penalty]
  split_ifs <;> rfl

lemma handle_penalty_added (s : SimState) (m : Nat) (team : TeamSide)
    (convert : ℚ) (pIdx : Nat) (shift : ℚ) :
    (_handle_penalty s m team convert pIdx shift).2.added_time = none := by
  simp only [_handle_penalty]
  split_ifs <;> rfl

/-- The event types present in the weighted table. -/
def tableType : LiveMatchEventType → Bool
  | LiveMatchEventType.possession_change => true
  | LiveMatchEventType.foul => true
  | LiveMatchEventType.shot_off_target => true
  | LiveMatchEventType.shot_on_target => true
  | LiveMatchEventType.corner => true
  | LiveMatchEventType.offside => true
  | LiveMatchEventType.save => true
  | LiveMatchEventType.free_kick => true
  | LiveMatchEventType.yellow_card => true
  | LiveMatchEventType.goal => true
  | LiveMatchEventType.injury => true
  | LiveMatchEventType.penalty_awarded => true
  | LiveMatchEventType.red_card => true
  | _ => false

lemma chooseWeighted_table (cfg : MatchConfig) (x : ℚ) :
    tableType (chooseWeighted (eventWeights cfg) x
      LiveMatchEventType.possession_change) = true := by
  have hmem := chooseWeighted_mem (eventWeights cfg) x
    LiveMatchEventType.possession_change
  revert hmem
  generalize chooseWeighted (eventWeights cfg) x
    LiveMatchEventType.possession_change = t
  intro hmem
  rcases hmem with hc | hc
  · subst hc
    rfl
  · simp only [eventWeights, List.map_cons, List.map_nil, List.mem_cons,
      List.not_mem_nil, or_false] at hc
    rcases hc with hc | hc | hc | hc | hc | hc | hc | hc | hc | hc | hc | hc | hc <;>
        subst hc <;> rfl

/-- Soundness of one dispatch on a table event type: a `StepOk` step whose
event has a realized generated type, the requested minute, and no
added-time stamp. -/
lemma dispatch_ok (s : SimState) (minute : Nat) (team : TeamSide)
    (player : PlayerInfo) (etype : LiveMatchEventType) (d : MinuteDraws)
    (ht : tableType etype = true) :
    StepOk s (dispatchEvent s minute team player etype d).1
      (dispatchEvent s minute team player etype d).2 ∧
    genType (dispatchEvent s minute team player etype d).2.event_type = true ∧
    (dispatchEvent s minute team player etype d).2.minute = minute ∧
    (dispatchEvent s minute team player etype d).2.added_time = none := by
  cases etype
  case match_start => exact absurd ht (by simp [tableType])
  case penalty_scored => exact absurd ht (by simp [tableType])
  case penalty_missed => exact absurd ht (by simp [tableType])
  case substitution => exact absurd ht (by simp [tableType])
  case halftime => exact absurd ht (by simp [tableType])
  case second_half_start => exact absurd ht (by simp [tableType])
  case added_time => exact absurd ht (by simp [tableType])
  case match_end => exact absurd ht (by simp [tableType])
  case goal =>
    have h := stepOk_handle_goal s minute team player d.assistDraw d.assistPicks d.shift
    refine ⟨by simpa [dispatchEvent] using h, ?_, ?_, ?_⟩ <;>
      simp [dispatchEvent, _handle_goal, genType]
  case yellow_card =>
    have h := stepOk_handle_yellow s minute team player d.shift
    refine ⟨by simpa [dispatchEvent] using h, ?_, ?_, ?_⟩ <;>
      simp [dispatchEvent, _handle_yellow_card, genType]
  case red_card =>
    have h := stepOk_handle_red s minute team player d.shift
    refine ⟨by simpa [dispatchEvent] using h, ?_, ?_, ?_⟩ <;>
      simp [dispatchEvent, _handle_red_card, genType]
  case penalty_awarded =>
    have h := stepOk_handle_penalty s minute team d.penaltyConvert d.penaltyPlayerIdx d.shift
    have hty := handle_penalty_type s minute team d.penaltyConvert d.penaltyPlayerIdx d.shift
    have hmin := handle_penalty_minute s minute team d.penaltyConvert d.penaltyPlayerIdx d.shift
    have hadd := handle_penalty_added s minute team d.penaltyConvert d.penaltyPlayerIdx d.shift
    have hd : dispatchEvent s minute team player
        LiveMatchEventType.penalty_awarded d
        = _handle_penalty s minute team d.penaltyConvert d.penaltyPlayerIdx
            d.shift := by
      simp [dispatchEvent]
    refine ⟨by simpa [dispatchEvent] using h, ?_, ?_, ?_⟩
    · rw [hd, hty]
      split_ifs <;> rfl
    · rw [hd, hmin]
    · rw [hd, hadd]
  case shot_on_target =>
    have h := stepOk_handle_sot s minute team player d.shift
    refine ⟨by simpa [dispatchEvent] using h, ?_, ?_, ?_⟩ <;>
      simp [dispatchEvent, _handle_shot_on_target, genType]
  case save =>
    have h := stepOk_handle_sot s minute team player d.shift
    refine ⟨by simpa [dispatchEvent] using h, ?_, ?_, ?_⟩ <;>
      simp [dispatchEvent, _handle_shot_on_target, genType]
  case shot_off_target =>
    have h := stepOk_handle_soff s minute team player d.shift
    refine ⟨by simpa [dispatchEvent] using h, ?_, ?_, ?_⟩ <;>
      simp [dispatchEvent, _handle_shot_off_target, genType]
  case corner =>
    have h := stepOk_handle_corner s minute team d.shift
    refine ⟨by simpa [dispatchEvent] using h, ?_, ?_, ?_⟩ <;>
      simp [dispatchEvent, _handle_corner, genType]
  case foul =>
    have h := stepOk_handle_foul s minute team player d.shift
    refine ⟨by simpa [dispatchEvent] using h, ?_, ?_, ?_⟩ <;>
      simp [dispatchEvent, _handle_foul, genType]
  case possession_change =>
    have h := stepOk_create_event s d.shift LiveMatchEventType.possession_change
      minute (some team) (some player) none none (by simp) (by simp) (by simp) (by simp)
    refine ⟨by simpa [dispatchEvent] using h, ?_, ?_, ?_⟩ <;>
      simp [dispatchEvent, genType]
  case offside =>
    have h := stepOk_create_event s d.shift LiveMatchEventType.offside
      minute (some team) (some player) none none (by simp) (by simp) (by simp) (by simp)
    refine ⟨by simpa [dispatchEvent] using h, ?_, ?_, ?_⟩ <;>
      simp [dispatchEvent, genType]
  case free_kick =>
    have h := stepOk_create_event s d.shift LiveMatchEventType.free_kick
      minute (some team) (some player) none none (by simp) (by simp) (by simp) (by simp)
    refine ⟨by simpa [dispatchEvent] using h, ?_, ?_, ?_⟩ <;>
      simp [dispatchEvent, genType]
  case injury =>
    have h := stepOk_create_event s d.shift LiveMatchEventType.injury
      minute (some team) (some player) none none (by simp) (by simp) (by simp) (by simp)
    refine ⟨by simpa [dispatchEvent] using h, ?_, ?_, ?_⟩ <;>
      simp [dispatchEvent, genType]

/-- Soundness of one `_generate_random_event` call: a `none` result leaves
the state untouched, and a `some` result is a `StepOk` step emitting a
realized generated event type at the requested minute. -/
lemma genOk (cfg : MatchConfig) (m : Nat) (d : MinuteDraws) (s : SimState) :
    ((_generate_random_event cfg m d s).2 = none →
      (_generate_random_event cfg m d s).1 = s) ∧
    (∀ e, (_generate_random_event cfg m d s).2 = some e →
      StepOk s (_generate_random_event cfg m d s).1 e ∧
      genType e.event_type = true ∧ e.minute = m ∧ e.added_time = none) := by
  by_cases hfire : (cfg.excitement_level : ℚ) / 15 < d.fire
  · refine ⟨?_, ?_⟩
    · intro _
      simp [_generate_random_event, if_pos hfire]
    · intro e he
      simp [_generate_random_event, if_pos hfire] at he
  · simp only [_generate_random_event, if_neg hfire]
    refine ⟨fun h => by simp at h, fun e he => ?_⟩
    obtain rfl : _ = e := Option.some_injective _ he
    exact dispatch_ok s m _ _ _ d (chooseWeighted_table cfg _)

lemma chainOk_append {s s1 s2 : SimState} {l1 l2 : List LiveMatchEvent}
    (h1 : ChainOk s l1 s1) (h2 : ChainOk s1 l2 s2) :
    ChainOk s (l1 ++ l2) s2 := by
  induction l1 generalizing s with
  | nil =>
    simp only [ChainOk] at h1
    subst h1
    simpa using h2
  | cons e l ih =>
    obtain ⟨t, hst, hch⟩ := h1
    exact ⟨t, hst, ih hch⟩

lemma runMinutes_nil (cfg : MatchConfig) (ds : Nat → MinuteDraws)
    (s : SimState) : runMinutes cfg ds [] s = (s, []) := rfl

lemma runMinutes_cons (cfg : MatchConfig) (ds : Nat → MinuteDraws) (m : Nat)
    (ms : List Nat) (s : SimState) :
    runMinutes cfg ds (m :: ms) s =
      ((runMinutes cfg ds ms (_generate_random_event cfg m (ds m) s).1).1,
       match (_generate_random_event cfg m (ds m) s).2 with
       | none => (runMinutes cfg ds ms (_generate_random_event cfg m (ds m) s).1).2
       | some e =>
           e :: (runMinutes cfg ds ms (_generate_random_event cfg m (ds m) s).1).2) :=
  rfl

/-- Soundness of a minute loop: the yielded events form a valid `StepOk`
trace from the entry state to the exit state, and every yielded event has a
realized generated type, a minute from the iterated list, and no added-time
stamp. -/
lemma runMinutes_ok (cfg : MatchConfig) (ds : Nat → MinuteDraws) :
    ∀ (ms : List Nat) (s : SimState),
      ChainOk s (runMinutes cfg ds ms s).2 (runMinutes cfg ds ms s).1 ∧
      ∀ e ∈ (runMinutes cfg ds ms s).2,
        genType e.event_type = true ∧ e.minute ∈ ms ∧ e.added_time = none := by
  intro ms
  induction ms with
  | nil =>
    intro s
    refine ⟨?_, ?_⟩
    · simp [runMinutes, ChainOk]
    · intro e he
      simp [runMinutes] at he
  | cons m ms ih =>
    intro s
    have hg := genOk cfg m (ds m) s
    rcases hr : (_generate_random_event cfg m (ds m) s).2 with _ | e0
    · have hs : (_generate_random_event cfg m (ds m) s).1 = s := hg.1 hr
      refine ⟨?_, ?_⟩
      · rw [runMinutes_cons, hr, hs]
        exact (ih s).1
      · intro e he
        rw [runMinutes_cons, hr, hs] at he
        simp only at he
        obtain ⟨h1, h2, h3⟩ := (ih s).2 e he
        exact ⟨h1, List.mem_cons_of_mem _ h2, h3⟩
    · obtain ⟨hstep, hgen, hmin, hadd⟩ := hg.2 e0 hr
      refine ⟨?_, ?_⟩
      · rw [runMinutes_cons, hr]
        exact ⟨(_generate_random_event cfg m (ds m) s).1, hstep,
          (ih (_generate_random_event cfg m (ds m) s).1).1⟩
      · intro e he
        rw [runMinutes_cons, hr] at he
        simp only [List.mem_cons] at he
        rcases he with rfl | he
        · exact ⟨hgen, by simp [hmin], hadd⟩
        · obtain ⟨h1, h2, h3⟩ :=
            (ih (_generate_random_event cfg m (ds m) s).1).2 e he
          exact ⟨h1, List.mem_cons_of_mem _ h2, h3⟩

lemma runAdded_nil (cfg : MatchConfig) (ds : Nat → MinuteDraws)
    (s : SimState) : runAdded cfg ds [] s = (s, []) := rfl

lemma runAdded_cons (cfg : MatchConfig) (ds : Nat → MinuteDraws) (k : Nat)
    (ks : List Nat) (s : SimState) :
    runAdded cfg ds (k :: ks) s =
      ((runAdded cfg ds ks (_generate_random_event cfg 90 (ds k) s).1).1,
       match (_generate_random_event cfg 90 (ds k) s).2 with
       | none => (runAdded cfg ds ks (_generate_random_event cfg 90 (ds k) s).1).2
       | some e =>
           { e with added_time := some k } ::
             (runAdded cfg ds ks (_generate_random_event cfg 90 (ds k) s).1).2) :=
  rfl

/-- Soundness of the added-time loop: a valid `StepOk` trace whose events
all carry minute 90 and an added-time stamp from the tick list, yielding at
most one event per tick. -/
lemma runAdded_ok (cfg : MatchConfig) (ds : Nat → MinuteDraws) :
    ∀ (ks : List Nat) (s : SimState),
      ChainOk s (runAdded cfg ds ks s).2 (runAdded cfg ds ks s).1 ∧
      (∀ e ∈ (runAdded cfg ds ks s).2,
        genType e.event_type = true ∧ e.minute = 90 ∧
        ∃ k ∈ ks, e.added_time = some k) ∧
      (runAdded cfg ds ks s).2.length ≤ ks.length := by
  intro ks
  induction ks with
  | nil =>
    intro s
    refine ⟨?_, ?_, ?_⟩
    · simp [runAdded, ChainOk]
    · intro e he
      simp [runAdded] at he
    · simp [runAdded]
  | cons k ks ih =>
    intro s
    have hg := genOk cfg 90 (ds k) s
    rcases hr : (_generate_random_event cfg 90 (ds k) s).2 with _ | e0
    · have hs : (_generate_random_event cfg 90 (ds k) s).1 = s := hg.1 hr
      refine ⟨?_, ?_, ?_⟩
      · rw [runAdded_cons, hr, hs]
        exact (ih s).1
      · intro e he
        rw [runAdded_cons, hr, hs] at he
        simp only at he
        obtain ⟨h1, h2, kk, hkk, h3⟩ := (ih s).2.1 e he
        exact ⟨h1, h2, kk, List.mem_cons_of_mem _ hkk, h3⟩
      · rw [runAdded_cons, hr, hs]
        simp only
        exact Nat.le_succ_of_le (ih s).2.2
    · obtain ⟨hstep, hgen, hmin, hadd⟩ := hg.2 e0 hr
      refine ⟨?_, ?_, ?_⟩
      · rw [runAdded_cons, hr]
        refine ⟨(_generate_random_event cfg 90 (ds k) s).1, ?_,
          (ih (_generate_random_event cfg 90 (ds k) s).1).1⟩
        exact hstep
      · intro e he
        rw [runAdded_cons, hr] at he
        simp only [List.mem_cons] at he
        rcases he with rfl | he
        · exact ⟨hgen, hmin, k, List.mem_cons_self _ _, rfl⟩
        · obtain ⟨h1, h2, kk, hkk, h3⟩ :=
            (ih (_generate_random_event cfg 90 (ds k) s).1).2.1 e he
          exact ⟨h1, h2, kk, List.mem_cons_of_mem _ hkk, h3⟩
      · rw [runAdded_cons, hr]
        simp only [List.length_cons]
        exact Nat.succ_le_succ (ih (_generate_random_event cfg 90 (ds k) s).1).2.2

/-! ### Phase decomposition of a full run -/

/-- Kickoff: the `match_start` event at minute 0. -/
def phase0 (cfg : MatchConfig) (o : MatchOracle) : SimState × LiveMatchEvent :=
  _create_event initState o.startShift LiveMatchEventType.match_start 0
    none none none none

/-- First half: minutes 1..45. -/
def phase1 (cfg : MatchConfig) (o : MatchOracle) :
    SimState × List LiveMatchEvent :=
  runMinutes cfg o.minuteDraws (List.range' 1 45) (phase0 cfg o).1

/-- The `halftime` event at minute 45. -/
def phase2 (cfg : MatchConfig) (o : MatchOracle) : SimState × LiveMatchEvent :=
  _create_event (phase1 cfg o).1 o.halftimeShift LiveMatchEventType.halftime 45
    none none none none

/-- The `second_half_start` event. -/
def phase3 (cfg : MatchConfig) (o : MatchOracle) : SimState × LiveMatchEvent :=
  _create_event (phase2 cfg o).1 o.secondHalfStartShift
    LiveMatchEventType.second_half_start 45 none none none none

/-- Second half: minutes 46..90. -/
def phase4 (cfg : MatchConfig) (o : MatchOracle) :
    SimState × List LiveMatchEvent :=
  runMinutes cfg o.minuteDraws (List.range' 46 45) (phase3 cfg o).1

/-- The added-minutes draw `random.randint(1, 5)`. -/
def addedCount (o : MatchOracle) : Nat :=
  1 + o.addedRaw % 5

/-- The `added_time` announcement at minute 90. -/
def phase5 (cfg : MatchConfig) (o : MatchOracle) : SimState × LiveMatchEvent :=
  _create_event (phase4 cfg o).1 o.addedShift LiveMatchEventType.added_time 90
    none none none none

/-- The added-time sub-ticks 1..N. -/
def phase6 (cfg : MatchConfig) (o : MatchOracle) :
    SimState × List LiveMatchEvent :=
  runAdded cfg o.addedTicks (List.range' 1 (addedCount o)) (phase5 cfg o).1

/-- The terminal `match_end` event. -/
def phase7 (cfg : MatchConfig) (o : MatchOracle) : SimState × LiveMatchEvent :=
  _create_event (phase6 cfg o).1 o.endShift LiveMatchEventType.match_end 90
    none none none (some (addedCount o))

lemma runMatch_eq (cfg : MatchConfig) (o : MatchOracle) :
    runMatch cfg o =
      ((phase7 cfg o).1,
        (phase0 cfg o).2 ::
          (phase1 cfg o).2 ++
            (phase2 cfg o).2 :: (phase3 cfg o).2 ::
              (phase4 cfg o).2 ++
                (phase5 cfg o).2 :: (phase6 cfg o).2 ++ [(phase7 cfg o).2]) :=
  rfl

lemma stepOk_phase0 (cfg : MatchConfig) (o : MatchOracle) :
    StepOk initState (phase0 cfg o).1 (phase0 cfg o).2 :=
  stepOk_create_event _ _ _ _ _ _ _ _ (by simp) (by simp) (by simp) (by simp)

lemma stepOk_phase2 (cfg : MatchConfig) (o : MatchOracle) :
    StepOk (phase1 cfg o).1 (phase2 cfg o).1 (phase2 cfg o).2 :=
  stepOk_create_event _ _ _ _ _ _ _ _ (by simp) (by simp) (by simp) (by simp)

lemma stepOk_phase3 (cfg : MatchConfig) (o : MatchOracle) :
    StepOk (phase2 cfg o).1 (phase3 cfg o).1 (phase3 cfg o).2 :=
  stepOk_create_event _ _ _ _ _ _ _ _ (by simp) (by simp) (by simp) (by simp)

lemma stepOk_phase5 (cfg : MatchConfig) (o : MatchOracle) :
    StepOk (phase4 cfg o).1 (phase5 cfg o).1 (phase5 cfg o).2 :=
  stepOk_create_event _ _ _ _ _ _ _ _ (by simp) (by simp) (by simp) (by simp)

lemma stepOk_phase7 (cfg : MatchConfig) (o : MatchOracle) :
    StepOk (phase6 cfg o).1 (phase7 cfg o).1 (phase7 cfg o).2 :=
  stepOk_create_event _ _ _ _ _ _ _ _ (by simp) (by simp) (by simp) (by simp)

/-- The full event stream is one valid `StepOk` trace from the fresh state
to the final state. -/
lemma runMatch_chain (cfg : MatchConfig) (o : MatchOracle) :
    ChainOk initState (simulate_match cfg o) (phase7 cfg o).1 := by
  have h6 : ChainOk (phase5 cfg o).1
      ((phase6 cfg o).2 ++ [(phase7 cfg o).2]) (phase7 cfg o).1 :=
    chainOk_append (runAdded_ok cfg o.addedTicks _ _).1
      ⟨(phase7 cfg o).1, stepOk_phase7 cfg o, rfl⟩
  have h5 : ChainOk (phase4 cfg o).1
      ((phase5 cfg o).2 :: (phase6 cfg o).2 ++ [(phase7 cfg o).2])
      (phase7 cfg o).1 :=
    ⟨(phase5 cfg o).1, stepOk_phase5 cfg o, h6⟩
  have h4 : ChainOk (phase3 cfg o).1
      ((phase4 cfg o).2 ++ (phase5 cfg o).2 :: (phase6 cfg o).2 ++
        [(phase7 cfg o).2]) (phase7 cfg o).1 := by
    have := chainOk_append (runMinutes_ok cfg o.minuteDraws (List.range' 46 45)
      (phase3 cfg o).1).1 h5
    simpa [List.append_assoc] using this
  have h3 : ChainOk (phase2 cfg o).1
      ((phase3 cfg o).2 :: (phase4 cfg o).2 ++ (phase5 cfg o).2 ::
        (phase6 cfg o).2 ++ [(phase7 cfg o).2]) (phase7 cfg o).1 :=
    ⟨(phase3 cfg o).1, stepOk_phase3 cfg o, by simpa [List.append_assoc] using h4⟩
  have h2 : ChainOk (phase1 cfg o).1
      ((phase2 cfg o).2 :: (phase3 cfg o).2 :: (phase4 cfg o).2 ++
        (phase5 cfg o).2 :: (phase6 cfg o).2 ++ [(phase7 cfg o).2])
      (phase7 cfg o).1 :=
    ⟨(phase2 cfg o).1, stepOk_phase2 cfg o, by simpa [List.append_assoc] using h3⟩
  have h1 : ChainOk (phase0 cfg o).1
      ((phase1 cfg o).2 ++ (phase2 cfg o).2 :: (phase3 cfg o).2 ::
        (phase4 cfg o).2 ++ (phase5 cfg o).2 :: (phase6 cfg o).2 ++
        [(phase7 cfg o).2]) (phase7 cfg o).1 := by
    have := chainOk_append (runMinutes_ok cfg o.minuteDraws (List.range' 1 45)
      (phase0 cfg o).1).1 (by simpa [List.append_assoc] using h2)
    simpa [List.append_assoc] using this
  have h0 : ChainOk initState (simulate_match cfg o) (phase7 cfg o).1 := by
    have : ChainOk initState
        ((phase0 cfg o).2 ::
          ((phase1 cfg o).2 ++ (phase2 cfg o).2 :: (phase3 cfg o).2 ::
            (phase4 cfg o).2 ++ (phase5 cfg o).2 :: (phase6 cfg o).2 ++
            [(phase7 cfg o).2])) (phase7 cfg o).1 :=
      ⟨(phase0 cfg o).1, stepOk_phase0 cfg o, h1⟩
    simpa [simulate_match, runMatch_eq, List.append_assoc] using this
  exact h0

/-- Every event of the stream has a realized generated type or is one of
the five fixed phase-marker events. -/
lemma runMatch_types (cfg : MatchConfig) (o : MatchOracle) :
    ∀ e ∈ simulate_match cfg o,
      genType e.event_type = true ∨
      e.event_type = LiveMatchEventType.match_start ∨
      e.event_type = LiveMatchEventType.halftime ∨
      e.event_type = LiveMatchEventType.second_half_start ∨
      e.event_type = LiveMatchEventType.added_time ∨
      e.event_type = LiveMatchEventType.match_end := by
  intro e he
  simp only [simulate_match, runMatch_eq, List.mem_cons, List.mem_append,
    List.mem_singleton] at he
  rcases he with (((rfl | he1) | rfl | rfl | he4) | rfl | he6) | rfl | hnil
  · exact Or.inr (Or.inl rfl)
  · exact Or.inl ((runMinutes_ok cfg o.minuteDraws _ _).2 e he1).1
  · exact Or.inr (Or.inr (Or.inl rfl))
  · exact Or.inr (Or.inr (Or.inr (Or.inl rfl)))
  · exact Or.inl ((runMinutes_ok cfg o.minuteDraws _ _).2 e he4).1
  · exact Or.inr (Or.inr (Or.inr (Or.inr (Or.inl rfl))))
  · exact Or.inl ((runAdded_ok cfg o.addedTicks _ _).2.1 e he6).1
  · exact Or.inr (Or.inr (Or.inr (Or.inr (Or.inr rfl))))
  · exact absurd hnil (by simp)

lemma chainOk_possession {s s' : SimState} {l : List LiveMatchEvent}
    (h : ChainOk s l s') : ∀ e ∈ l, possessionOk e.stats := by
  induction l generalizing s with
  | nil =>
    intro e he
    simp at he
  | cons e0 l ih =>
    obtain ⟨t, hst, hch⟩ := h
    intro e he
    rcases List.mem_cons.mp he with rfl | he
    · exact hst.2.2.1
    · exact ih hch e he

lemma chainOk_chain' {s s' : SimState} {l : List LiveMatchEvent}
    (h : ChainOk s l s') :
    List.Chain' (fun a b => scoreStep a.score b ∧ cardStep a.stats b) l ∧
    (∀ e, l.head? = some e → scoreStep s.score e ∧ cardStep s.stats e) := by
  induction l generalizing s with
  | nil => exact ⟨List.chain'_nil, fun e he => by simp at he⟩
  | cons e0 l ih =>
    obtain ⟨t, hst, hch⟩ := h
    obtain ⟨hc, hh⟩ := ih hch
    refine ⟨?_, ?_⟩
    · rw [List.chain'_cons']
      refine ⟨?_, hc⟩
      intro e2 he2
      have := hh e2 he2
      rw [hst.1, hst.2.1]
      exact this
    · intro e he
      simp only [List.head?_cons, Option.some.injEq] at he
      subst he
      exact ⟨hst.2.2.2.1, hst.2.2.2.2⟩

lemma scoreStep_le {prev : MatchScore} {e : LiveMatchEvent}
    (h : scoreStep prev e) :
    prev.home ≤ e.score.home ∧ prev.away ≤ e.score.away := by
  unfold scoreStep at h
  split_ifs at h
  · rcases h with h | h <;> rw [h] <;> simp
  · rw [h]
    exact ⟨le_refl _, le_refl _⟩

/-- Scores are monotonically non-decreasing along the stream (all ordered
pairs, not just consecutive ones). -/
lemma chain_score_pairwise {s s' : SimState} {l : List LiveMatchEvent}
    (h : ChainOk s l s') :
    List.Pairwise
      (fun a b => a.score.home ≤ b.score.home ∧ a.score.away ≤ b.score.away)
      l := by
  have hc := (chainOk_chain' h).1
  have hc2 : List.Chain'
      (fun a b : LiveMatchEvent =>
        a.score.home ≤ b.score.home ∧ a.score.away ≤ b.score.away) l := by
    refine List.Chain'.imp ?_ hc
    intro a b hab
    exact scoreStep_le hab.1
  haveI : IsTrans LiveMatchEvent
      (fun a b => a.score.home ≤ b.score.home ∧ a.score.away ≤ b.score.away) :=
    ⟨fun a b c hab hbc => ⟨le_trans hab.1 hbc.1, le_trans hab.2 hbc.2⟩⟩
  exact List.chain'_iff_pairwise.mp hc2

/-! ### Claim theorems on the event stream -/

/-- C2: across the event stream of one session, consecutive events satisfy
`scoreStep` (a `goal` or `penalty_scored` event raises exactly one side's
score by exactly 1 relative to the immediately preceding snapshot, every
other event type carries the preceding score unchanged), and the scores of
every ordered pair of events are componentwise non-decreasing. -/
theorem c2_score_evolution (cfg : MatchConfig) (o : MatchOracle) :
    List.Chain' (fun a b => scoreStep a.score b) (simulate_match cfg o) ∧
    List.Pairwise
      (fun a b => a.score.home ≤ b.score.home ∧ a.score.away ≤ b.score.away)
      (simulate_match cfg o) := by
  have h := runMatch_chain cfg o
  exact ⟨List.Chain'.imp (fun a b hab => hab.1) (chainOk_chain' h).1,
    chain_score_pairwise h⟩

/-- C4: every stats snapshot in every event of every session has
`possession_home + possession_away = 100` exactly and both possessions in
[30, 70]; the initial pre-event state is exactly 50/50; and the possession
update adds the drawn shift to `possession_home`, clamps it to [30, 70],
and sets `possession_away` to `100` minus the result. -/
theorem c4_possession (cfg : MatchConfig) (o : MatchOracle) :
    List.Forall (fun e => possessionOk e.stats) (simulate_match cfg o) ∧
    initStats.possession_home = 50 ∧ initStats.possession_away = 50 ∧
    (∀ (shift : ℚ) (st : MatchStats),
      (_update_possession shift st).possession_home
          = max 30 (min 70 (st.possession_home + shift)) ∧
      (_update_possession shift st).possession_away
          = 100 - max 30 (min 70 (st.possession_home + shift))) := by
  refine ⟨?_, rfl, rfl, fun shift st => ⟨rfl, rfl⟩⟩
  rw [List.forall_iff_forall_mem]
  exact chainOk_possession (runMatch_chain cfg o)

/-- C10: across the event stream, every `yellow_card` event carries the
carded side in its `team` field and increments exactly that side's
yellow-card counter and that same side's fouls counter by 1 (leaving the
other side's counters unchanged), and every `red_card` event does the same
with the red-card counter, relative to the immediately preceding
snapshot. -/
theorem c10_cards_count_as_fouls (cfg : MatchConfig) (o : MatchOracle) :
    List.Chain' (fun a b => cardStep a.stats b) (simulate_match cfg o) :=
  List.Chain'.imp (fun a b hab => hab.2) (chainOk_chain' (runMatch_chain cfg o)).1

/-! ### Per-side accessors used to state the handler contracts -/

/-- The named side's score. -/
def scoreOf : TeamSide → MatchScore → Nat
  | TeamSide.home, sc => sc.home
  | TeamSide.away, sc => sc.away

/-- The named side's shots counter. -/
def shotsOf : TeamSide → MatchStats → Nat
  | TeamSide.home, st => st.shots_home
  | TeamSide.away, st => st.shots_away

/-- The named side's shots-on-target counter. -/
def sotOf : TeamSide → MatchStats → Nat
  | TeamSide.home, st => st.shots_on_target_home
  | TeamSide.away, st => st.shots_on_target_away

/-- The opposite side. -/
def otherSide : TeamSide → TeamSide
  | TeamSide.home => TeamSide.away
  | TeamSide.away => TeamSide.home

/-- If an event type is neither a realized generated type nor a phase
marker, no event of the stream carries it. -/
lemma stream_type_ne (cfg : MatchConfig) (o : MatchOracle)
    (t : LiveMatchEventType) (hg : genType t = false)
    (hp : t ≠ LiveMatchEventType.match_start ∧
      t ≠ LiveMatchEventType.halftime ∧
      t ≠ LiveMatchEventType.second_half_start ∧
      t ≠ LiveMatchEventType.added_time ∧
      t ≠ LiveMatchEventType.match_end) :
    ∀ e ∈ simulate_match cfg o, e.event_type ≠ t := by
  intro e he heq
  rcases runMatch_types cfg o e he with h | h | h | h | h | h <;> rw [heq] at h
  · rw [h] at hg
    cases hg
  · exact hp.1 h
  · exact hp.2.1 h
  · exact hp.2.2.1 h
  · exact hp.2.2.2.1 h
  · exact hp.2.2.2.2 h

/-- C3: the `penalty_awarded` draw is resolved immediately: no event of any
session stream ever carries `penalty_awarded`; the dispatch chain routes a
`penalty_awarded` draw to `_handle_penalty`, which emits exactly one event —
`penalty_scored` exactly when the unit conversion draw exceeds 0.25 (75% of
the uniform draw mass), incrementing the taking side's score, shots, and
shots-on-target by 1, and `penalty_missed` otherwise (25%), incrementing
only the shots counter; the other side is untouched either way. -/
theorem c3_penalty_resolution :
    (∀ (cfg : MatchConfig) (o : MatchOracle),
      List.Forall (fun e => e.event_type ≠ LiveMatchEventType.penalty_awarded)
        (simulate_match cfg o)) ∧
    (∀ (s : SimState) (m : Nat) (team : TeamSide) (player : PlayerInfo)
        (d : MinuteDraws),
      dispatchEvent s m team player LiveMatchEventType.penalty_awarded d
        = _handle_penalty s m team d.penaltyConvert d.penaltyPlayerIdx d.shift) ∧
    (∀ (s : SimState) (m : Nat) (team : TeamSide) (convert : ℚ) (pIdx : Nat)
        (shift : ℚ),
      (_handle_penalty s m team convert pIdx shift).2.event_type
          = (if (1/4 : ℚ) < convert then LiveMatchEventType.penalty_scored
             else LiveMatchEventType.penalty_missed) ∧
      (_handle_penalty s m team convert pIdx shift).2.score
          = (_handle_penalty s m team convert pIdx shift).1.score ∧
      (_handle_penalty s m team convert pIdx shift).2.stats
          = (_handle_penalty s m team convert pIdx shift).1.stats ∧
      scoreOf team (_handle_penalty s m team convert pIdx shift).1.score
          = scoreOf team s.score + (if (1/4 : ℚ) < convert then 1 else 0) ∧
      scoreOf (otherSide team) (_handle_penalty s m team convert pIdx shift).1.score
          = scoreOf (otherSide team) s.score ∧
      shotsOf team (_handle_penalty s m team convert pIdx shift).1.stats
          = shotsOf team s.stats + 1 ∧
      shotsOf (otherSide team) (_handle_penalty s m team convert pIdx shift).1.stats
          = shotsOf (otherSide team) s.stats ∧
      sotOf team (_handle_penalty s m team convert pIdx shift).1.stats
          = sotOf team s.stats + (if (1/4 : ℚ) < convert then 1 else 0) ∧
      sotOf (otherSide team) (_handle_penalty s m team convert pIdx shift).1.stats
          = sotOf (otherSide team) s.stats) := by
  refine ⟨?_, ?_, ?_⟩
  · intro cfg o
    rw [List.forall_iff_forall_mem]
    exact stream_type_ne cfg o LiveMatchEventType.penalty_awarded rfl
      ⟨by simp, by simp, by simp, by simp, by simp⟩
  · intro s m team player d
    simp [dispatchEvent]
  · intro s m team convert pIdx shift
    cases team <;> simp only [_handle_penalty] <;> split_ifs <;>
      simp_all [scoreOf, shotsOf, sotOf, otherSide]

/-- C7: a `shot_on_target` draw (table weight 10) and a `save` draw are both
routed to `_handle_shot_on_target`, which emits a `save` event incrementing
the acting side's shots and shots-on-target counters by 1 and leaving the
other side untouched; consequently no event of any session stream ever
carries `shot_on_target`. -/
theorem c7_shot_on_target_realized_as_save :
    (∀ (cfg : MatchConfig) (o : MatchOracle),
      List.Forall (fun e => e.event_type ≠ LiveMatchEventType.shot_on_target)
        (simulate_match cfg o)) ∧
    (∀ cfg : MatchConfig,
      (LiveMatchEventType.shot_on_target, (10 : ℚ)) ∈ eventWeights cfg) ∧
    (∀ (s : SimState) (m : Nat) (team : TeamSide) (player : PlayerInfo)
        (d : MinuteDraws),
      dispatchEvent s m team player LiveMatchEventType.shot_on_target d
          = _handle_shot_on_target s m team player d.shift ∧
      dispatchEvent s m team player LiveMatchEventType.save d
          = _handle_shot_on_target s m team player d.shift) ∧
    (∀ (s : SimState) (m : Nat) (team : TeamSide) (player : PlayerInfo)
        (shift : ℚ),
      (_handle_shot_on_target s m team player shift).2.event_type
          = LiveMatchEventType.save ∧
      shotsOf team (_handle_shot_on_target s m team player shift).1.stats
          = shotsOf team s.stats + 1 ∧
      shotsOf (otherSide team) (_handle_shot_on_target s m team player shift).1.stats
          = shotsOf (otherSide team) s.stats ∧
      sotOf team (_handle_shot_on_target s m team player shift).1.stats
          = sotOf team s.stats + 1 ∧
      sotOf (otherSide team) (_handle_shot_on_target s m team player shift).1.stats
          = sotOf (otherSide team) s.stats) := by
  refine ⟨?_, ?_, ?_, ?_⟩
  · intro cfg o
    rw [List.forall_iff_forall_mem]
    exact stream_type_ne cfg o LiveMatchEventType.shot_on_target rfl
      ⟨by simp, by simp, by simp, by simp, by simp⟩
  · intro cfg
    simp [eventWeights]
  · intro s m team player d
    constructor <;> simp [dispatchEvent]
  · intro s m team player shift
    cases team <;> simp [_handle_shot_on_target, shotsOf, sotOf, otherSide]

/-- C9: both fixed rosters hold 10 players with pairwise distinct names; a
goal attaches an assister exactly when the unit draw exceeds 0.3 (70% of
the draw mass); the re-draw loop returns the first draw naming a player
distinct from the scorer, so it terminates with such a player whenever the
draw sequence contains one differing draw — and because the roster names
are pairwise distinct, the draw sequence [0, 1] already guarantees this for
every scorer. -/
theorem c9_assister_loop_terminates :
    RICHMOND_PLAYERS.length = 10 ∧ AWAY_PLAYERS.length = 10 ∧
    (RICHMOND_PLAYERS.map PlayerInfo.name).Nodup ∧
    (AWAY_PLAYERS.map PlayerInfo.name).Nodup ∧
    (∀ (s : SimState) (m : Nat) (team : TeamSide) (scorer : PlayerInfo)
        (ad : ℚ) (ap : List Nat) (shift : ℚ),
      (_handle_goal s m team scorer ad ap shift).2.secondary_player
        = if (3/10 : ℚ) < ad then pickAssister team scorer ap else none) ∧
    (∀ (team : TeamSide) (scorer : PlayerInfo) (ds : List Nat),
      (∃ i ∈ ds, (_get_player team i).name ≠ scorer.name) →
      ∃ p, pickAssister team scorer ds = some p ∧ p.name ≠ scorer.name) ∧
    (∀ (team : TeamSide) (scorer : PlayerInfo),
      ∃ p, pickAssister team scorer [0, 1] = some p ∧ p.name ≠ scorer.name) := by
  have hfind : ∀ (team : TeamSide) (scorer : PlayerInfo) (ds : List Nat),
      (∃ i ∈ ds, (_get_player team i).name ≠ scorer.name) →
      ∃ p, pickAssister team scorer ds = some p ∧ p.name ≠ scorer.name := by
    intro team scorer ds
    induction ds with
    | nil =>
      intro h
      simp at h
    | cons i ds ih =>
      intro h
      by_cases hi : (_get_player team i).name = scorer.name
      · obtain ⟨j, hj, hne⟩ := h
        rcases List.mem_cons.mp hj with rfl | hj
        · exact absurd hi hne
        · obtain ⟨p, hp, hpne⟩ := ih ⟨j, hj, hne⟩
          exact ⟨p, by simpa [pickAssister, hi] using hp, hpne⟩
      · exact ⟨_get_player team i, by simp [pickAssister, hi], hi⟩
  refine ⟨rfl, rfl, by decide, by decide, ?_, hfind, ?_⟩
  · intro s m team scorer ad ap shift
    rfl
  · intro team scorer
    by_cases h0 : (_get_player team 0).name = scorer.name
    · refine hfind team scorer [0, 1] ⟨1, by simp, ?_⟩
      rw [← h0]
      cases team <;> decide
    · exact hfind team scorer [0, 1] ⟨0, by simp, h0⟩

/-- Witness for C9: the loop finds an assister for the first Richmond
scorer from the single draw index 1. -/
theorem c9_assister_loop_terminates_witness :
    ∃ p, pickAssister TeamSide.home ⟨"Sam Obisanya", 24, "Forward"⟩ [1]
        = some p ∧
      p.name ≠ (⟨"Sam Obisanya", 24, "Forward"⟩ : PlayerInfo).name :=
  c9_assister_loop_terminates.2.2.2.2.2.1 TeamSide.home
    ⟨"Sam Obisanya", 24, "Forward"⟩ [1] (by decide)

/-! ### Concrete runs -/

/-- A draws record whose fire draw (1) exceeds every possible
`excitement_level / 15`, so the minute yields no event. -/
def quietDraw : MinuteDraws := ⟨1, true, 0, 0, 0, 0, 0, 0, []⟩

/-- The default configuration (`excitement_level = 5`, `speed = 1`). -/
def cfgEx : MatchConfig := ⟨"AFC Richmond", "West Ham United", 1, 5⟩

/-- An oracle on which no minute fires and one added-time tick is drawn. -/
def quietOracle : MatchOracle :=
  ⟨0, fun _ => quietDraw, 0, 0, 0, 0, fun _ => quietDraw, 0⟩

/-- A draws record that fires and lands the weighted draw on
`penalty_awarded` (`x = (66/67) * (201/2) = 99`, which falls in the
cumulative-weight slot of `penalty_awarded` for `excitement_level = 5`),
with a converting penalty draw. -/
def penDraw : MinuteDraws := ⟨0, true, 0, 66/67, 0, 1, 0, 0, []⟩

/-- An oracle on which exactly minute 1 fires, producing a converted
penalty, and nothing else fires. -/
def penOracle : MatchOracle :=
  ⟨0, fun m => if m = 1 then penDraw else quietDraw, 0, 0, 0, 0,
    fun _ => quietDraw, 0⟩

lemma gen_quiet (m : Nat) (s : SimState) :
    _generate_random_event cfgEx m quietDraw s = (s, none) := by
  simp only [_generate_random_event]
  rw [if_pos]
  norm_num [cfgEx, quietDraw]

lemma runMinutes_allquiet (ds : Nat → MinuteDraws) (ms : List Nat)
    (h : ∀ m ∈ ms, ds m = quietDraw) :
    ∀ s : SimState, runMinutes cfgEx ds ms s = (s, []) := by
  induction ms with
  | nil => intro s; rfl
  | cons m ms ih =>
    intro s
    rw [runMinutes_cons, h m (List.mem_cons_self _ _), gen_quiet]
    have := ih (fun k hk => h k (List.mem_cons_of_mem _ hk)) s
    simp [this]

lemma runAdded_allquiet (ds : Nat → MinuteDraws) (ks : List Nat)
    (h : ∀ k ∈ ks, ds k = quietDraw) :
    ∀ s : SimState, runAdded cfgEx ds ks s = (s, []) := by
  induction ks with
  | nil => intro s; rfl
  | cons k ks ih =>
    intro s
    rw [runAdded_cons, h k (List.mem_cons_self _ _), gen_quiet]
    have := ih (fun j hj => h j (List.mem_cons_of_mem _ hj)) s
    simp [this]

lemma totalWeight_cfgEx : totalWeight cfgEx = 201/2 := by
  norm_num [totalWeight, eventWeights, cfgEx]

lemma choose_pen :
    chooseWeighted (eventWeights cfgEx) (99 : ℚ)
      LiveMatchEventType.possession_change
      = LiveMatchEventType.penalty_awarded := by
  simp only [eventWeights, cfgEx, chooseWeighted]
  norm_num

lemma gen_pen (s : SimState) :
    _generate_random_event cfgEx 1 penDraw s
      = ((_handle_penalty s 1 TeamSide.home 1 0 0).1,
         some (_handle_penalty s 1 TeamSide.home 1 0 0).2) := by
  simp only [_generate_random_event]
  rw [if_neg (by norm_num [cfgEx, penDraw])]
  have hx : penDraw.typeDraw * totalWeight cfgEx = 99 := by
    rw [totalWeight_cfgEx]
    norm_num [penDraw]
  rw [hx, choose_pen]
  simp only [show (if penDraw.sideHome = true then TeamSide.home
      else TeamSide.away) = TeamSide.home from rfl]
  rw [show dispatchEvent s 1 TeamSide.home
      (_get_player TeamSide.home penDraw.playerIdx)
      LiveMatchEventType.penalty_awarded penDraw
      = _handle_penalty s 1 TeamSide.home 1 0 0 from by
    simp [dispatchEvent, penDraw]]

lemma handle_penalty_fst_id (s : SimState) (m : Nat) (team : TeamSide)
    (c : ℚ) (p : Nat) (sh : ℚ) :
    (_handle_penalty s m team c p sh).1.event_id = s.event_id + 2 := by
  simp only [_handle_penalty]
  split_ifs <;> cases team <;> rfl

lemma handle_penalty_snd_id (s : SimState) (m : Nat) (team : TeamSide)
    (c : ℚ) (p : Nat) (sh : ℚ) :
    (_handle_penalty s m team c p sh).2.event_id = s.event_id + 2 := by
  simp only [_handle_penalty]
  split_ifs <;> cases team <;> rfl

lemma penOracle_quiet_first : ∀ m ∈ List.range' 2 44,
    penOracle.minuteDraws m = quietDraw := by
  intro m hm
  obtain ⟨i, _, rfl⟩ := List.mem_range'.mp hm
  show (if 2 + 1 * i = 1 then penDraw else quietDraw) = quietDraw
  rw [if_neg (by omega)]

lemma penOracle_quiet_second : ∀ m ∈ List.range' 46 45,
    penOracle.minuteDraws m = quietDraw := by
  intro m hm
  obtain ⟨i, _, rfl⟩ := List.mem_range'.mp hm
  show (if 46 + 1 * i = 1 then penDraw else quietDraw) = quietDraw
  rw [if_neg (by omega)]

lemma phase1_pen : phase1 cfgEx penOracle
    = ((_handle_penalty (phase0 cfgEx penOracle).1 1 TeamSide.home 1 0 0).1,
       [(_handle_penalty (phase0 cfgEx penOracle).1 1 TeamSide.home 1 0 0).2]) := by
  unfold phase1
  rw [show List.range' 1 45 = 1 :: List.range' 2 44 from rfl, runMinutes_cons,
    show penOracle.minuteDraws 1 = penDraw from rfl, gen_pen,
    runMinutes_allquiet penOracle.minuteDraws (List.range' 2 44)
      penOracle_quiet_first]

lemma phase4_pen : phase4 cfgEx penOracle = ((phase3 cfgEx penOracle).1, []) := by
  unfold phase4
  exact runMinutes_allquiet penOracle.minuteDraws (List.range' 46 45)
    penOracle_quiet_second _

lemma phase6_pen : phase6 cfgEx penOracle = ((phase5 cfgEx penOracle).1, []) := by
  unfold phase6
  rw [show List.range' 1 (addedCount penOracle) = [1] from rfl]
  exact runAdded_allquiet penOracle.addedTicks [1] (fun k _ => rfl) _

/-- C1 fails on the code: on the default configuration, with random draws
that make exactly minute 1 fire and land on a (converted) penalty, the
Driver yields event ids 1, 3, 4, 5, 6, 7 — the penalty event double-bumps
the counter (`_handle_penalty` increments `event_id` and `_create_event`
increments it again), so id 2 is skipped and the sequence has a gap. -/
theorem c1_event_id_gap_on_penalty :
    (simulate_match cfgEx penOracle).map (fun e => e.event_id)
        = [1, 3, 4, 5, 6, 7] ∧
    (simulate_match cfgEx penOracle).map (fun e => e.event_type)
        = [LiveMatchEventType.match_start, LiveMatchEventType.penalty_scored,
           LiveMatchEventType.halftime, LiveMatchEventType.second_half_start,
           LiveMatchEventType.added_time, LiveMatchEventType.match_end] := by
  have i1f : (phase1 cfgEx penOracle).1.event_id = 3 := by
    rw [phase1_pen]
    show (_handle_penalty (phase0 cfgEx penOracle).1 1 TeamSide.home 1 0 0).1.event_id = 3
    rw [handle_penalty_fst_id]
    rfl
  have i2f : (phase2 cfgEx penOracle).1.event_id = 4 := by
    unfold phase2
    rw [create_event_fst_id, i1f]
  have i2e : (phase2 cfgEx penOracle).2.event_id = 4 := by
    unfold phase2
    rw [create_event_snd_id, i1f]
  have i3f : (phase3 cfgEx penOracle).1.event_id = 5 := by
    unfold phase3
    rw [create_event_fst_id, i2f]
  have i3e : (phase3 cfgEx penOracle).2.event_id = 5 := by
    unfold phase3
    rw [create_event_snd_id, i2f]
  have i5f : (phase5 cfgEx penOracle).1.event_id = 6 := by
    unfold phase5
    rw [create_event_fst_id, phase4_pen, i3f]
  have i5e : (phase5 cfgEx penOracle).2.event_id = 6 := by
    unfold phase5
    rw [create_event_snd_id, phase4_pen, i3f]
  have i7e : (phase7 cfgEx penOracle).2.event_id = 7 := by
    unfold phase7
    rw [create_event_snd_id, phase6_pen, i5f]
  have ipe : (_handle_penalty (phase0 cfgEx penOracle).1 1 TeamSide.home 1 0 0).2.event_id = 3 := by
    rw [handle_penalty_snd_id]
    rfl
  have tpe : (_handle_penalty (phase0 cfgEx penOracle).1 1 TeamSide.home 1 0 0).2.event_type
      = LiveMatchEventType.penalty_scored := by
    rw [handle_penalty_type]
    norm_num
  have i0e : (phase0 cfgEx penOracle).2.event_id = 1 := rfl
  have t0e : (phase0 cfgEx penOracle).2.event_type
      = LiveMatchEventType.match_start := rfl
  have t2e : (phase2 cfgEx penOracle).2.event_type
      = LiveMatchEventType.halftime := rfl
  have t3e : (phase3 cfgEx penOracle).2.event_type
      = LiveMatchEventType.second_half_start := rfl
  have t5e : (phase5 cfgEx penOracle).2.event_type
      = LiveMatchEventType.added_time := rfl
  have t7e : (phase7 cfgEx penOracle).2.event_type
      = LiveMatchEventType.match_end := rfl
  constructor <;>
    simp [simulate_match, runMatch_eq, phase1_pen, phase4_pen, phase6_pen,
      i0e, i2e, i3e, i5e, i7e, ipe, tpe, t0e, t2e, t3e, t5e, t7e]

/-- C5 as stated is refuted by this run: the added-time draw is N = 1, yet
the `added_time` announcement is followed by zero sub-tick events (the
single added-time tick did not fire), so the stream is just the five phase
markers. -/
theorem c5_counterexample :
    addedCount quietOracle = 1 ∧
    (simulate_match cfgEx quietOracle).map (fun e => e.event_type)
      = [LiveMatchEventType.match_start, LiveMatchEventType.halftime,
         LiveMatchEventType.second_half_start, LiveMatchEventType.added_time,
         LiveMatchEventType.match_end] := by
  have p1 : phase1 cfgEx quietOracle = ((phase0 cfgEx quietOracle).1, []) := by
    unfold phase1
    exact runMinutes_allquiet quietOracle.minuteDraws _ (fun _ _ => rfl) _
  have p4 : phase4 cfgEx quietOracle = ((phase3 cfgEx quietOracle).1, []) := by
    unfold phase4
    exact runMinutes_allquiet quietOracle.minuteDraws _ (fun _ _ => rfl) _
  have p6 : phase6 cfgEx quietOracle = ((phase5 cfgEx quietOracle).1, []) := by
    unfold phase6
    exact runAdded_allquiet quietOracle.addedTicks _ (fun _ _ => rfl) _
  refine ⟨rfl, ?_⟩
  simp [simulate_match, runMatch_eq, p1, p4, p6,
    show (phase0 cfgEx quietOracle).2.event_type
      = LiveMatchEventType.match_start from rfl,
    show (phase2 cfgEx quietOracle).2.event_type
      = LiveMatchEventType.halftime from rfl,
    show (phase3 cfgEx quietOracle).2.event_type
      = LiveMatchEventType.second_half_start from rfl,
    show (phase5 cfgEx quietOracle).2.event_type
      = LiveMatchEventType.added_time from rfl,
    show (phase7 cfgEx quietOracle).2.event_type
      = LiveMatchEventType.match_end from rfl]

/-- C5 (amended): the Driver's stream decomposes in phase order with no
backward transition — exactly one `match_start` at minute 0, first-half
events at minutes 1..45, exactly one `halftime` at minute 45, exactly one
`second_half_start`, second-half events at minutes 46..90, one `added_time`
announcement at minute 90 followed by at most N sub-tick events at minute
90 (each tick fires only with the per-minute event probability), where
N = `1 + addedRaw % 5` lies in [1, 5], and one terminal `match_end`
carrying the final score and stats; the five phase-marker types never occur
among generated events, so each occurs exactly once. -/
theorem c5_driver_phase_order (cfg : MatchConfig) (o : MatchOracle) :
    ∃ (e0 e1 e2 e3 e4 : LiveMatchEvent) (fh sh ae : List LiveMatchEvent)
      (fin : SimState),
      runMatch cfg o = (fin, e0 :: fh ++ e1 :: e2 :: sh ++ e3 :: ae ++ [e4]) ∧
      e0.event_type = LiveMatchEventType.match_start ∧ e0.minute = 0 ∧
      List.Forall (fun e => genType e.event_type = true ∧
        1 ≤ e.minute ∧ e.minute ≤ 45 ∧ e.added_time = none) fh ∧
      e1.event_type = LiveMatchEventType.halftime ∧ e1.minute = 45 ∧
      e2.event_type = LiveMatchEventType.second_half_start ∧
      List.Forall (fun e => genType e.event_type = true ∧
        46 ≤ e.minute ∧ e.minute ≤ 90 ∧ e.added_time = none) sh ∧
      e3.event_type = LiveMatchEventType.added_time ∧ e3.minute = 90 ∧
      List.Forall (fun e => genType e.event_type = true ∧ e.minute = 90 ∧
        ∃ k, 1 ≤ k ∧ k ≤ addedCount o ∧ e.added_time = some k) ae ∧
      ae.length ≤ addedCount o ∧
      1 ≤ addedCount o ∧ addedCount o ≤ 5 ∧
      e4.event_type = LiveMatchEventType.match_end ∧ e4.minute = 90 ∧
      e4.added_time = some (addedCount o) ∧
      e4.score = fin.score ∧ e4.stats = fin.stats ∧
      genType LiveMatchEventType.match_start = false ∧
      genType LiveMatchEventType.halftime = false ∧
      genType LiveMatchEventType.second_half_start = false ∧
      genType LiveMatchEventType.added_time = false ∧
      genType LiveMatchEventType.match_end = false := by
  refine ⟨(phase0 cfg o).2, (phase2 cfg o).2, (phase3 cfg o).2,
    (phase5 cfg o).2, (phase7 cfg o).2, (phase1 cfg o).2, (phase4 cfg o).2,
    (phase6 cfg o).2, (phase7 cfg o).1,
    runMatch_eq cfg o, rfl, rfl, ?_, rfl, rfl, rfl, ?_, rfl, rfl, ?_, ?_,
    ?_, ?_, rfl, rfl, rfl, rfl, rfl, rfl, rfl, rfl, rfl, rfl⟩
  · rw [List.forall_iff_forall_mem]
    intro e he
    obtain ⟨hg, hm, ha⟩ := (runMinutes_ok cfg o.minuteDraws _ _).2 e he
    obtain ⟨i, hi, hmi⟩ := List.mem_range'.mp hm
    exact ⟨hg, by omega, by omega, ha⟩
  · rw [List.forall_iff_forall_mem]
    intro e he
    obtain ⟨hg, hm, ha⟩ := (runMinutes_ok cfg o.minuteDraws _ _).2 e he
    obtain ⟨i, hi, hmi⟩ := List.mem_range'.mp hm
    exact ⟨hg, by omega, by omega, ha⟩
  · rw [List.forall_iff_forall_mem]
    intro e he
    obtain ⟨hg, hm, k, hk, ha⟩ := (runAdded_ok cfg o.addedTicks _ _).2.1 e he
    obtain ⟨i, hi, rfl⟩ := List.mem_range'.mp hk
    exact ⟨hg, hm, 1 + 1 * i, by omega, by omega, ha⟩
  · have := (runAdded_ok cfg o.addedTicks
      (List.range' 1 (addedCount o)) (phase5 cfg o).1).2.2
    simpa using this
  · show 1 ≤ 1 + o.addedRaw % 5
    omega
  · show 1 + o.addedRaw % 5 ≤ 5
    have : o.addedRaw % 5 < 5 := Nat.mod_lt _ (by omega)
    omega

/-! ### The Connection Session (`live_match_simulation` happy path) -/

/-- A JSON value, modelling what `json.loads` can return. -/
inductive Json where
  | null
  | bool (b : Bool)
  | num (q : ℚ)
  | str (s : String)
  | arr (items : List Json)
  | obj (fields : List (String × Json))

/-- The outbound messages of `live_match_simulation`, reduced to the fields
the verified properties mention. -/
inductive OutMessage where
  | match_start
  | match_event (e : LiveMatchEvent)
  | pong
  | match_end (final_score : MatchScore) (final_stats : MatchStats)
      (man_of_the_match : String)
  | error_msg (code : String)

/-- One inbound poll result: `none` is a receive timeout, `some none` is a
payload that fails JSON decoding, `some (some j)` is a decoded value `j`. -/
abbrev Inbound : Type := Option (Option Json)

/-- The inbound-message block of the event loop (source lines 186-205): a
decoded object whose `"action"` field is the string `"ping"` gets exactly
one pong reply; a timeout, a decode error (`json.JSONDecodeError` caught),
or a non-object value (whose `.get` raises `AttributeError`, caught by the
outer bare `except`) gets nothing, and the loop continues either way. -/
def pongReply (inb : Inbound) : List OutMessage :=
  match inb with
  | none => []
  | some none => []
  | some (some (Json.obj fields)) =>
    match fields.lookup "action" with
    | some (Json.str a) => if a = "ping" then [OutMessage.pong] else []
    | _ => []
  | some (some _) => []

/-- What the claim calls a ping: the payload parses as a JSON object whose
`"action"` field equals `"ping"`. -/
def isPingPayload (inb : Inbound) : Bool :=
  match inb with
  | some (some (Json.obj fields)) =>
    match fields.lookup "action" with
    | some (Json.str a) => a == "ping"
    | _ => false
  | _ => false

/-- The `async for` event loop: for each Driver event, send a `match_event`
wrapper, then poll the inbound side once (the i-th poll result given by the
`inbound` function). -/
def emitLoop : List LiveMatchEvent → (Nat → Inbound) → Nat → List OutMessage
  | [], _, _ => []
  | e :: rest, inbound, i =>
    OutMessage.match_event e :: (pongReply (inbound i) ++ emitLoop rest inbound (i + 1))

/-- `man_of_the_match`: a roster pick from the side whose final score is
greater or equal (`"home" if score.home >= score.away else "away"`). -/
def manOfTheMatch (fin : SimState) (idx : Nat) : String :=
  (_get_player
    (if fin.score.away ≤ fin.score.home then TeamSide.home else TeamSide.away)
    idx).name

/-- The full outbound message stream of one completed session: the
`match_start` message, the event loop, and — when the Driver yielded at
least one event (`if final_event:`) — one `match_end` message built from the
final simulation state. -/
def sessionMessages (cfg : MatchConfig) (o : MatchOracle)
    (inbound : Nat → Inbound) (motmIdx : Nat) : List OutMessage :=
  let r := runMatch cfg o
  OutMessage.match_start ::
    (emitLoop r.2 inbound 0 ++
      (if r.2.isEmpty then []
       else [OutMessage.match_end r.1.score r.1.stats
               (manOfTheMatch r.1 motmIdx)]))

def isStartMsg : OutMessage → Bool
  | OutMessage.match_start => true
  | _ => false

def isEventMsg : OutMessage → Bool
  | OutMessage.match_event _ => true
  | _ => false

def isEndMsg : OutMessage → Bool
  | OutMessage.match_end _ _ _ => true
  | _ => false

def isPongMsg : OutMessage → Bool
  | OutMessage.pong => true
  | _ => false

def isErrorMsg : OutMessage → Bool
  | OutMessage.error_msg _ => true
  | _ => false

/-- The inbound block replies with exactly one pong when the payload is a
ping object, and with nothing otherwise. -/
lemma pongReply_eq (inb : Inbound) :
    pongReply inb = if isPingPayload inb then [OutMessage.pong] else [] := by
  rcases inb with _ | x
  · rfl
  rcases x with _ | j
  · rfl
  cases j with
  | null => rfl
  | bool b => rfl
  | num q => rfl
  | str s => rfl
  | arr items => rfl
  | obj fields =>
    show pongReply (some (some (Json.obj fields))) = _
    rcases hl : fields.lookup "action" with _ | v
    · simp [pongReply, isPingPayload, hl]
    cases v with
    | str a =>
      by_cases ha : a = "ping" <;> simp [pongReply, isPingPayload, hl, ha]
    | null => simp [pongReply, isPingPayload, hl]
    | bool b => simp [pongReply, isPingPayload, hl]
    | num q => simp [pongReply, isPingPayload, hl]
    | arr items => simp [pongReply, isPingPayload, hl]
    | obj fields2 => simp [pongReply, isPingPayload, hl]

lemma pongReply_mem (inb : Inbound) :
    ∀ m ∈ pongReply inb, m = OutMessage.pong := by
  intro m hm
  rw [pongReply_eq] at hm
  split_ifs at hm
  · simpa using hm
  · simp at hm

lemma emitLoop_mem (evs : List LiveMatchEvent) (inbound : Nat → Inbound) :
    ∀ i, ∀ m ∈ emitLoop evs inbound i,
      (∃ e ∈ evs, m = OutMessage.match_event e) ∨ m = OutMessage.pong := by
  induction evs with
  | nil =>
    intro i m hm
    simp [emitLoop] at hm
  | cons e rest ih =>
    intro i m hm
    simp only [emitLoop, List.mem_cons, List.mem_append] at hm
    rcases hm with rfl | hm | hm
    · exact Or.inl ⟨e, List.mem_cons_self _ _, rfl⟩
    · exact Or.inr (pongReply_mem _ m hm)
    · rcases ih (i + 1) m hm with ⟨e2, he2, rfl⟩ | rfl
      · exact Or.inl ⟨e2, List.mem_cons_of_mem _ he2, rfl⟩
      · exact Or.inr rfl

lemma emitLoop_filter (evs : List LiveMatchEvent) (inbound : Nat → Inbound) :
    ∀ i, (emitLoop evs inbound i).filter (fun m => !(isPongMsg m))
      = evs.map OutMessage.match_event := by
  induction evs with
  | nil =>
    intro i
    rfl
  | cons e rest ih =>
    intro i
    simp only [emitLoop, List.filter_cons, List.filter_append, List.map_cons]
    have h1 : (pongReply (inbound i)).filter (fun m => !(isPongMsg m)) = [] := by
      rw [pongReply_eq]
      split_ifs <;> simp [isPongMsg]
    rw [h1, ih (i + 1)]
    rfl

lemma emitLoop_none (evs : List LiveMatchEvent) :
    ∀ i, emitLoop evs (fun _ => none) i = evs.map OutMessage.match_event := by
  induction evs with
  | nil => intro i; rfl
  | cons e rest ih =>
    intro i
    simp only [emitLoop, pongReply, List.nil_append, List.map_cons]
    rw [ih (i + 1)]

lemma emitLoop_countP_events (evs : List LiveMatchEvent)
    (inbound : Nat → Inbound) :
    ∀ i, (emitLoop evs inbound i).countP (fun m => isEventMsg m)
      = evs.length := by
  induction evs with
  | nil => intro i; rfl
  | cons e rest ih =>
    intro i
    simp only [emitLoop, List.countP_cons, List.countP_append, List.length_cons]
    have h1 : (pongReply (inbound i)).countP (fun m => isEventMsg m) = 0 := by
      rw [pongReply_eq]
      split_ifs <;> simp [isEventMsg]
    rw [h1, ih (i + 1)]
    simp [isEventMsg]

lemma session_unfold (cfg : MatchConfig) (o : MatchOracle)
    (inbound : Nat → Inbound) (motmIdx : Nat) :
    sessionMessages cfg o inbound motmIdx
      = OutMessage.match_start ::
          (emitLoop (runMatch cfg o).2 inbound 0 ++
            [OutMessage.match_end (runMatch cfg o).1.score
              (runMatch cfg o).1.stats
              (manOfTheMatch (runMatch cfg o).1 motmIdx)]) := by
  have hne : (runMatch cfg o).2.isEmpty = false := by
    rw [runMatch_eq]
    rfl
  simp [sessionMessages, hne]

/-- C6: the outbound stream of a completed session is exactly one
`match_start` message, then the event-loop messages (which contain no
`match_start` and no `match_end` and wrap each Driver event in exactly one
`match_event`), then exactly one `match_end` whose `final_score` and
`final_stats` equal the score and stats snapshots of the final
`match_event` (the Driver's terminal event). -/
theorem c6_session_start_end (cfg : MatchConfig) (o : MatchOracle)
    (inbound : Nat → Inbound) (motmIdx : Nat) :
    ∃ (evs body : List LiveMatchEvent) (e4 : LiveMatchEvent) (fin : SimState),
      runMatch cfg o = (fin, evs) ∧
      evs = body ++ [e4] ∧
      e4.event_type = LiveMatchEventType.match_end ∧
      sessionMessages cfg o inbound motmIdx
        = OutMessage.match_start ::
            (emitLoop evs inbound 0 ++
              [OutMessage.match_end e4.score e4.stats
                (manOfTheMatch fin motmIdx)]) ∧
      fin.score = e4.score ∧ fin.stats = e4.stats ∧
      List.Forall (fun m => isStartMsg m = false ∧ isEndMsg m = false)
        (emitLoop evs inbound 0) ∧
      (emitLoop evs inbound 0).countP (fun m => isEventMsg m) = evs.length ∧
      (sessionMessages cfg o inbound motmIdx).countP
          (fun m => isStartMsg m) = 1 ∧
      (sessionMessages cfg o inbound motmIdx).countP
          (fun m => isEndMsg m) = 1 := by
  have hstart0 : (emitLoop (runMatch cfg o).2 inbound 0).countP
      (fun m => isStartMsg m) = 0 := by
    rw [List.countP_eq_zero]
    intro m hm
    rcases emitLoop_mem (runMatch cfg o).2 inbound 0 m hm with ⟨e, _, rfl⟩ | rfl <;>
      simp [isStartMsg]
  have hend0 : (emitLoop (runMatch cfg o).2 inbound 0).countP
      (fun m => isEndMsg m) = 0 := by
    rw [List.countP_eq_zero]
    intro m hm
    rcases emitLoop_mem (runMatch cfg o).2 inbound 0 m hm with ⟨e, _, rfl⟩ | rfl <;>
      simp [isEndMsg]
  refine ⟨(runMatch cfg o).2,
    (phase0 cfg o).2 ::
      (phase1 cfg o).2 ++ (phase2 cfg o).2 :: (phase3 cfg o).2 ::
        (phase4 cfg o).2 ++ (phase5 cfg o).2 :: (phase6 cfg o).2,
    (phase7 cfg o).2, (phase7 cfg o).1, rfl, ?_, rfl,
    session_unfold cfg o inbound motmIdx, rfl, rfl, ?_, ?_, ?_, ?_⟩
  · rw [show (runMatch cfg o).2
        = (phase0 cfg o).2 ::
            (phase1 cfg o).2 ++
              (phase2 cfg o).2 :: (phase3 cfg o).2 ::
                (phase4 cfg o).2 ++
                  (phase5 cfg o).2 :: (phase6 cfg o).2 ++ [(phase7 cfg o).2]
      from rfl]
  · rw [List.forall_iff_forall_mem]
    intro m hm
    rcases emitLoop_mem (runMatch cfg o).2 inbound 0 m hm with ⟨e, _, rfl⟩ | rfl <;>
      simp [isStartMsg, isEndMsg]
  · exact emitLoop_countP_events (runMatch cfg o).2 inbound 0
  · rw [session_unfold, List.countP_cons, List.countP_append, hstart0]
    simp [isStartMsg]
  · rw [session_unfold, List.countP_cons, List.countP_append, hend0]
    simp [isEndMsg]

/-- C8: the inbound block replies with exactly one pong message exactly
when the client payload decodes to a JSON object whose `action` field is
the string `"ping"`; every other payload — a decode error, a non-object
value, or an object without that field — produces no reply; the session
emits no `error` message for any inbound stream; and removing the pong
replies leaves exactly the message stream of a session that received
nothing, so events flow uninterrupted. -/
theorem c8_ping_handling (cfg : MatchConfig) (o : MatchOracle)
    (motmIdx : Nat) (inbound : Nat → Inbound) :
    (∀ inb : Inbound,
      pongReply inb = if isPingPayload inb then [OutMessage.pong] else []) ∧
    List.Forall (fun m => isErrorMsg m = false)
      (sessionMessages cfg o inbound motmIdx) ∧
    (sessionMessages cfg o inbound motmIdx).filter (fun m => !(isPongMsg m))
      = sessionMessages cfg o (fun _ => none) motmIdx := by
  refine ⟨pongReply_eq, ?_, ?_⟩
  · rw [List.forall_iff_forall_mem]
    intro m hm
    rw [session_unfold] at hm
    simp only [List.mem_cons, List.mem_append, List.mem_singleton] at hm
    rcases hm with rfl | hm | rfl | hnil
    · rfl
    · rcases emitLoop_mem (runMatch cfg o).2 inbound 0 m hm with ⟨e, _, rfl⟩ | rfl <;>
        simp [isErrorMsg]
    · rfl
    · exact absurd hnil (by simp)
  · rw [session_unfold, session_unfold]
    simp only [List.filter_cons, List.filter_append]
    rw [emitLoop_filter, emitLoop_none]
    rfl
